import Mathlib

/-!
# terraform-provider-ncloud: SES cluster resource, SES versions and server product data sources

A shallow embedding of `ncloud/resource_ncloud_ses_cluster.go`,
`ncloud/data_source_ncloud_ses_versions.go` and
`ncloud/data_source_ncloud_server_product.go`.

* Go pointers are `Option`s, a dereference of `nil` is a panic.
* The cloud is an explicit state: the answers it gives are functions of the
  number of API calls made so far, and every call is appended to a log.
* A provider operation returns an `Outcome`: the diagnostics (or a panic),
  the resource data and the cloud as the operation leaves them.
-/

namespace Ncloud

/-! ## Status codes (resource_ncloud_ses_cluster.go, lines 21-29) -/

def SESStatusCreatingCode : String := "creating"
def SESStatusChangingCode : String := "changing"
def SESStatusWorkingCode : String := "working"
def SESStatusRunningCode : String := "running"
def SESStatusDeletingCode : String := "deleting"
def SESStatusReturnCode : String := "return"
def SESStatusNullCode : String := "null"

/-! ## Errors -/

/-- The ways `StateChangeConf.WaitForStateContext` fails. -/
inductive WaitError where
  /-- The refresh function returned an error. -/
  | refresh (msg : String)
  /-- The refresh function returned a nil result more than `NotFoundChecks` times. -/
  | notFound (retries : Nat)
  /-- The state is neither a target nor a pending state. -/
  | unexpectedState (state : String)
  /-- The timeout fired first. -/
  | timeout (lastState : String)
  deriving DecidableEq, Repr

/-- Go `error` values of the provider. -/
inductive Error where
  /-- An error returned by a call of the vendor SDK. -/
  | api (msg : String)
  /-- The value of `NotSupportClassic(name)`. -/
  | notSupportClassic (name : String)
  /-- The error built at line 456. -/
  | waitActive (uuid : String) (cause : WaitError)
  /-- The error built at line 431. -/
  | waitDeletion (id : String) (cause : WaitError)
  /-- The error of `validateOneResult`. -/
  | validateOneResult (resultCount : Nat)
  deriving DecidableEq, Repr

/-- Modelled from the spec: the helper `NotSupportClassic` is not under src/;
the operations return its value for a configuration without VPC support. -/
def NotSupportClassic (name : String) : Error := Error.notSupportClassic name

/-! ## Values of the vendor SDK -/

/-- The `ncloud.StringValue` helper: the string a pointer points to, or "". -/
def StringValue (p : Option String) : String :=
  match p with
  | some s => s
  | none => ""

/-- The `ncloud.Int32Value` helper: the number a pointer points to, or 0. -/
def Int32Value (p : Option Int) : Int :=
  match p with
  | some i => i
  | none => 0

/-- The `strconv.Itoa` function. -/
def Itoa (i : Int) : String := toString i

/-- The fields of `vses2.OpenApiGetClusterInfoResponseVo` the provider reads;
every field is a pointer. -/
structure ClusterInfo where
  ServiceGroupInstanceNo : Option String
  ClusterName : Option String
  ClusterStatus : Option String
  SoftwareProductCode : Option String
  VpcNo : Option Int
  LoginKeyName : Option String
  SearchEngineVersionCode : Option String
  SearchEngineUserName : Option String
  IsDualManager : Option Bool
  ManagerNodeCount : Option Int
  ManagerNodeSubnetNo : Option Int
  ManagerNodeProductCode : Option String
  DataNodeCount : Option Int
  DataNodeSubnetNo : Option Int
  DataNodeProductCode : Option String
  DataNodeStorageSize : Option String
  MasterNodeCount : Option Int
  MasterNodeSubnetNo : Option Int
  MasterNodeProductCode : Option String
  deriving DecidableEq, Repr

/-- The request `vses2.CreateClusterRequestVo`. -/
structure CreateClusterRequestVo where
  ClusterName : Option String
  SearchEngineVersionCode : Option String
  SearchEngineUserName : Option String
  SearchEngineUserPassword : Option String
  SoftwareProductCode : Option String
  VpcNo : Option Int
  IsDualManager : Option Bool
  ManagerNodeProductCode : Option String
  ManagerNodeSubnetNo : Option Int
  DataNodeProductCode : Option String
  DataNodeSubnetNo : Option Int
  DataNodeCount : Option Int
  DataNodeStorageSize : Option Int
  IsMasterOnlyNodeActivated : Option Bool
  MasterNodeProductCode : Option String
  MasterNodeSubnetNo : Option Int
  MasterNodeCount : Option Int
  LoginKeyName : Option String
  deriving DecidableEq, Repr

/-- The request `vses2.ResetSearchEngineUserPasswordRequestVo`. -/
structure ResetSearchEngineUserPasswordRequestVo where
  SearchEngineUserPassword : Option String
  deriving DecidableEq, Repr

/-- The request `vses2.AddNodesInClusterRequestVo`. -/
structure AddNodesInClusterRequestVo where
  NewDataNodeCount : Option String
  deriving DecidableEq, Repr

/-- An element of `ElasticSearchVersionList`; both fields are plain strings. -/
structure ElasticSearchVersion where
  ElasticSearchVersionCode : String
  ElasticSearchVersionName : String
  deriving DecidableEq, Repr

/-- The request `server.GetServerProductListRequest` (classic). -/
structure ClassicGetServerProductListRequest where
  ExclusionProductCode : Option String
  ServerImageProductCode : Option String
  ProductCode : Option String
  RegionNo : Option String
  ZoneNo : Option String
  deriving DecidableEq, Repr

/-- The request `vserver.GetServerProductListRequest` (VPC). -/
structure VpcGetServerProductListRequest where
  ExclusionProductCode : Option String
  ServerImageProductCode : Option String
  ProductCode : Option String
  RegionCode : Option String
  ZoneCode : Option String
  deriving DecidableEq, Repr

/-- The calls the provider makes on the vendor SDK. -/
inductive ApiCall where
  | CreateCluster (req : CreateClusterRequestVo)
  | GetClusterInfo (uuid : String)
  | ResetSearchEngineUserPassword (uuid : String) (req : ResetSearchEngineUserPasswordRequestVo)
  | AddNodesInCluster (uuid : String) (req : AddNodesInClusterRequestVo)
  | DeleteCluster (uuid : String)
  | GetElasticsearchVersionList (softwareProductCode : Int)
  | ClassicGetServerProductList (req : ClassicGetServerProductListRequest)
  | VpcGetServerProductList (req : VpcGetServerProductListRequest)
  deriving DecidableEq, Repr

/-- The fields of a server product the provider reads; every field is a
pointer, and the three codes are pointers to a struct holding a pointer. -/
structure Product where
  ProductCode : Option String
  ProductName : Option String
  ProductType : Option (Option String)
  ProductDescription : Option String
  InfraResourceType : Option (Option String)
  CpuCount : Option Int
  MemorySize : Option Int
  BaseBlockStorageSize : Option Int
  DiskType : Option (Option String)
  GenerationCode : Option String
  deriving DecidableEq, Repr

/-! ## The cloud -/

/-- The state of the world outside the provider.  Each answer is a function
of the number of calls made before it (the length of `calls`) and of the
arguments of the call; `calls` is the log of the calls, oldest first.
`pollsBeforeTimeout` is the number of refreshes a wait completes before its
timeout fires. -/
structure Cloud where
  getClusterInfo : Nat → String → Except String (Option ClusterInfo)
  createCluster : Nat → CreateClusterRequestVo → Except String (Option Int)
  resetSearchEngineUserPassword :
    Nat → String → ResetSearchEngineUserPasswordRequestVo → Option String
  addNodesInCluster : Nat → String → AddNodesInClusterRequestVo → Option String
  deleteCluster : Nat → String → Option String
  getElasticsearchVersionList : Nat → Except String (List ElasticSearchVersion)
  classicGetServerProductList :
    Nat → ClassicGetServerProductListRequest → Except String (List Product)
  vpcGetServerProductList :
    Nat → VpcGetServerProductListRequest → Except String (List Product)
  pollsBeforeTimeout : Nat
  calls : List ApiCall

/-- The cloud after one more call has been logged. -/
def Cloud.record (c : Cloud) (call : ApiCall) : Cloud :=
  { c with calls := c.calls ++ [call] }

/-- The provider configuration: `SupportVPC`, the region and the client. -/
structure ProviderConfig where
  SupportVPC : Bool
  RegionNo : String
  RegionCode : String
  deriving DecidableEq, Repr

/-! ## The polling helper of the Terraform plugin SDK -/

/-- What a `Refresh` function returns: whether the result is nil, the state
string and the error. -/
structure RefreshResult where
  resultIsNil : Bool
  state : String
  err : Option String
  deriving DecidableEq, Repr

/-- The fields of `resource.StateChangeConf` that decide the outcome of a
wait.  `NotFoundChecks` is 20 when it is left unset. -/
structure StateChangeConf where
  Pending : List String
  Target : List String
  NotFoundChecks : Nat := 20
  deriving DecidableEq, Repr

/-- Modelled from the spec: the Terraform plugin SDK's state-machine helper
`StateChangeConf.WaitForStateContext` is not owned by this repository.  The
loop refreshes until the timeout (here: `fuel` refreshes): a refresh error
ends it; a nil result counts towards `NotFoundChecks`; a target state ends
it with success; a pending state polls again; any other state is an
unexpected-state error when `Pending` is non-empty. -/
def WaitForStateContext.loop (conf : StateChangeConf)
    (refresh : Cloud → RefreshResult × Cloud) :
    Nat → Nat → String → Cloud → Option WaitError × Cloud
  | 0, _, lastState, c => (some (WaitError.timeout lastState), c)
  | fuel + 1, notfoundTick, _, c =>
    match refresh c with
    | (r, c1) =>
      match r.err with
      | some e => (some (WaitError.refresh e), c1)
      | none =>
        if r.resultIsNil then
          if conf.Target.isEmpty then (none, c1)
          else if notfoundTick + 1 > conf.NotFoundChecks then
            (some (WaitError.notFound (notfoundTick + 1)), c1)
          else WaitForStateContext.loop conf refresh fuel (notfoundTick + 1) r.state c1
        else if conf.Target.contains r.state then (none, c1)
        else if conf.Pending.contains r.state then
          WaitForStateContext.loop conf refresh fuel 0 r.state c1
        else if conf.Pending.length > 0 then
          (some (WaitError.unexpectedState r.state), c1)
        else WaitForStateContext.loop conf refresh fuel 0 r.state c1

/-- The call `stateConf.WaitForStateContext(ctx)`: the loop, with as many
refreshes as fit before the timeout. -/
def WaitForStateContext (conf : StateChangeConf)
    (refresh : Cloud → RefreshResult × Cloud) (c : Cloud) : Option WaitError × Cloud :=
  WaitForStateContext.loop conf refresh c.pollsBeforeTimeout 0 "" c

/-! ## resource_ncloud_ses_cluster.go: lookups and waits -/

/-- Lines 461-468: one `GetClusterInfoUsingGET` call; `resp.Result` may be nil. -/
def getSESCluster (uuid : String) (c : Cloud) : Except String (Option ClusterInfo) × Cloud :=
  (c.getClusterInfo c.calls.length uuid, c.record (ApiCall.GetClusterInfo uuid))

/-- Lines 416-425: the refresh function of `waitForSESClusterDeletion`. -/
def waitForSESClusterDeletion.Refresh (id : String) (c : Cloud) : RefreshResult × Cloud :=
  match getSESCluster id c with
  | (Except.error err, c1) => ({ resultIsNil := true, state := "", err := some err }, c1)
  | (Except.ok none, c1) =>
    ({ resultIsNil := false, state := SESStatusNullCode, err := none }, c1)
  | (Except.ok (some cluster), c1) =>
    ({ resultIsNil := false, state := StringValue cluster.ClusterStatus, err := none }, c1)

/-- Lines 412-434. -/
def waitForSESClusterDeletion (id : String) (c : Cloud) : Option Error × Cloud :=
  let stateConf : StateChangeConf :=
    { Pending := [SESStatusRunningCode, SESStatusDeletingCode],
      Target := [SESStatusReturnCode] }
  match WaitForStateContext stateConf (waitForSESClusterDeletion.Refresh id) c with
  | (some err, c1) => (some (Error.waitDeletion id err), c1)
  | (none, c1) => (none, c1)

/-- Lines 440-450: the refresh function of `waitForSESClusterActive`. -/
def waitForSESClusterActive.Refresh (uuid : String) (c : Cloud) : RefreshResult × Cloud :=
  match getSESCluster uuid c with
  | (Except.error err, c1) => ({ resultIsNil := true, state := "", err := some err }, c1)
  | (Except.ok none, c1) =>
    ({ resultIsNil := false, state := SESStatusNullCode, err := none }, c1)
  | (Except.ok (some cluster), c1) =>
    ({ resultIsNil := false, state := StringValue cluster.ClusterStatus, err := none }, c1)

/-- Lines 436-459. -/
def waitForSESClusterActive (uuid : String) (c : Cloud) : Option Error × Cloud :=
  let stateConf : StateChangeConf :=
    { Pending := [SESStatusCreatingCode, SESStatusChangingCode],
      Target := [SESStatusRunningCode] }
  match WaitForStateContext stateConf (waitForSESClusterActive.Refresh uuid) c with
  | (some err, c1) => (some (Error.waitActive uuid err), c1)
  | (none, c1) => (none, c1)

/-- The status a lookup answer is reported as by the refresh functions:
none for a lookup error, "null" for no cluster, else the cluster status. -/
def reportedStatus (r : Except String (Option ClusterInfo)) : Option String :=
  match r with
  | Except.error _ => none
  | Except.ok none => some SESStatusNullCode
  | Except.ok (some cluster) => some (StringValue cluster.ClusterStatus)

/-- The cloud after `n` more lookups of the cluster `uuid`. -/
def Cloud.polled (c : Cloud) (uuid : String) (n : Nat) : Cloud :=
  { c with calls := c.calls ++ List.replicate n (ApiCall.GetClusterInfo uuid) }

/-- What one refresh makes of a lookup answer under `conf`: `none` to poll
again, `some r` to end the wait with `r`. -/
def pollVerdict (conf : StateChangeConf) (r : Except String (Option ClusterInfo)) :
    Option (Option WaitError) :=
  match r with
  | Except.error e => some (some (WaitError.refresh e))
  | Except.ok x =>
    let s := (reportedStatus (Except.ok x)).getD ""
    if conf.Target.contains s then some none
    else if conf.Pending.contains s then none
    else if conf.Pending.length > 0 then some (some (WaitError.unexpectedState s))
    else none

/-- The configuration `stateConf` of `waitForSESClusterActive` (lines 437-454). -/
def activeConf : StateChangeConf :=
  { Pending := [SESStatusCreatingCode, SESStatusChangingCode], Target := [SESStatusRunningCode] }

/-- The configuration `stateConf` of `waitForSESClusterDeletion` (lines 413-429). -/
def deletionConf : StateChangeConf :=
  { Pending := [SESStatusRunningCode, SESStatusDeletingCode], Target := [SESStatusReturnCode] }

/-! ## Repository helpers that are not under src/ -/

/-- The conversion `int32(v)` of Go: the value wrapped into 32 bits. -/
def toInt32 (v : Int) : Int := (v + 2 ^ 31) % 2 ^ 32 - 2 ^ 31

/-- The value of a run of decimal digits. -/
def digitsValue (cs : List Char) : Nat :=
  cs.foldl (fun n ch => n * 10 + (ch.toNat - 48)) 0

/-- The `strconv.Atoi` function: an optional sign, then one or more decimal
digits, the value within 64 bits; `none` stands for a non-nil error. -/
def Atoi (s : String) : Option Int :=
  let body : Bool × List Char :=
    match s.data with
    | '-' :: rest => (true, rest)
    | '+' :: rest => (false, rest)
    | rest => (false, rest)
  if body.2.isEmpty || !body.2.all Char.isDigit then none
  else
    let v : Int := if body.1 then -(digitsValue body.2 : Int) else (digitsValue body.2 : Int)
    if v < -(2 ^ 63) || v > 2 ^ 63 - 1 then none else some v

/-- Modelled from the spec: the helper `StringPtrOrNil(v, ok)` is not under
src/; it is nil when `ok` is false and else points to the string. -/
def StringPtrOrNil (v : String) (ok : Bool) : Option String :=
  if ok then some v else none

/-- Modelled from the spec: the helper `BoolPtrOrNil(v, ok)` is not under
src/; it is nil when `ok` is false and else points to the boolean. -/
def BoolPtrOrNil (v : Bool) (ok : Bool) : Option Bool :=
  if ok then some v else none

/-- Modelled from the spec: the helper `getInt32FromString(v, ok)` is not
under src/; it is nil when `ok` is false or the string is no decimal number,
and else points to the number as an int32. -/
def getInt32FromString (v : String) (ok : Bool) : Option Int :=
  if ok then
    match Atoi v with
    | some intV => some (toInt32 intV)
    | none => none
  else none

/-! ## Resource data of `ncloud_ses_cluster` -/

/-- A `search_engine` block as a Go map handed to `d.Set`: a key that the
map does not hold is `none`. -/
structure SearchEngineElem where
  version_code : Option String := none
  port : Option String := none
  user_name : Option String := none
  user_password : Option String := none
  deriving DecidableEq, Repr

/-- A `manager_node` block as a Go map handed to `d.Set`. -/
structure ManagerNodeElem where
  is_dual_manager : Option Bool := none
  subnet_no : Option String := none
  product_code : Option String := none
  count : Option String := none
  deriving DecidableEq, Repr

/-- A `data_node` block as a Go map handed to `d.Set`. -/
structure DataNodeElem where
  subnet_no : Option String := none
  product_code : Option String := none
  count : Option String := none
  storage_size : Option String := none
  deriving DecidableEq, Repr

/-- A `master_node` block as a Go map handed to `d.Set`. -/
structure MasterNodeElem where
  is_master_only_node_activated : Option Bool := none
  subnet_no : Option String := none
  product_code : Option String := none
  count : Option String := none
  deriving DecidableEq, Repr

/-- A `search_engine` block as `d.Get` and `d.GetChange` return it: every
key of the schema holds a value, the zero value when nothing was set. -/
structure SearchEngineMap where
  version_code : String
  port : String
  user_name : String
  user_password : String
  deriving DecidableEq, Repr

/-- A `manager_node` block as `d.Get` returns it. -/
structure ManagerNodeMap where
  is_dual_manager : Bool
  subnet_no : String
  product_code : String
  count : String
  deriving DecidableEq, Repr

/-- A `data_node` block as `d.Get` and `d.GetChange` return it. -/
structure DataNodeMap where
  subnet_no : String
  product_code : String
  count : String
  storage_size : String
  deriving DecidableEq, Repr

/-- A `master_node` block as `d.Get` returns it. -/
structure MasterNodeMap where
  is_master_only_node_activated : Bool
  subnet_no : String
  product_code : String
  count : String
  deriving DecidableEq, Repr

/-- What `d.Get` makes of a string that may not be set. -/
def stringOrZero (v : Option String) : String :=
  match v with
  | some s => s
  | none => ""

/-- What `d.Get` makes of a boolean that may not be set. -/
def boolOrZero (v : Option Bool) : Bool :=
  match v with
  | some b => b
  | none => false

def SearchEngineElem.read (e : SearchEngineElem) : SearchEngineMap :=
  { version_code := stringOrZero e.version_code, port := stringOrZero e.port,
    user_name := stringOrZero e.user_name, user_password := stringOrZero e.user_password }

def ManagerNodeElem.read (e : ManagerNodeElem) : ManagerNodeMap :=
  { is_dual_manager := boolOrZero e.is_dual_manager, subnet_no := stringOrZero e.subnet_no,
    product_code := stringOrZero e.product_code, count := stringOrZero e.count }

def DataNodeElem.read (e : DataNodeElem) : DataNodeMap :=
  { subnet_no := stringOrZero e.subnet_no, product_code := stringOrZero e.product_code,
    count := stringOrZero e.count, storage_size := stringOrZero e.storage_size }

def MasterNodeElem.read (e : MasterNodeElem) : MasterNodeMap :=
  { is_master_only_node_activated := boolOrZero e.is_master_only_node_activated,
    subnet_no := stringOrZero e.subnet_no, product_code := stringOrZero e.product_code,
    count := stringOrZero e.count }

/-- The attributes of the schema (lines 45-187); a string that is not set
is "". -/
structure Attrs where
  uuid : String
  service_group_instance_no : String
  cluster_name : String
  software_product_code : String
  vpc_no : String
  search_engine : List SearchEngineElem
  manager_node : List ManagerNodeElem
  data_node : List DataNodeElem
  master_node : List MasterNodeElem
  login_key_name : String
  deriving DecidableEq, Repr

/-- The `schema.ResourceData` of the resource: the ID, the prior state, and
the attributes as `d.Get` sees them (the state, the planned changes and what
`d.Set` has written). -/
structure ResourceData where
  id : String
  state : Attrs
  attrs : Attrs
  deriving DecidableEq, Repr

/-- The call `d.SetId(v)`. -/
def ResourceData.SetId (d : ResourceData) (v : String) : ResourceData :=
  { d with id := v }

/-- The call `d.GetOk(key)` on a string attribute: the value, and whether it
is set to something other than the zero value. -/
def GetOk (v : String) : String × Bool := (v, v != "")

/-- How a provider function ends: it returns nil, it returns an error (as
an error or as diagnostics), or it panics. -/
inductive Return where
  | nil
  | err (e : Error)
  | panic (msg : String)
  deriving DecidableEq, Repr

/-- The run-time panic of an index into an empty slice. -/
def indexOutOfRange : String := "index out of range [0] with length 0"

/-- The run-time panic of a dereference of nil. -/
def nilDereference : String := "invalid memory address or nil pointer dereference"

/-- What an operation of the resource leaves behind. -/
structure Outcome where
  ret : Return
  d : ResourceData
  cloud : Cloud

/-! ## resource_ncloud_ses_cluster.go: the operations -/

/-- The name the resource passes to `NotSupportClassic`. -/
def sesClusterName : String := "resource `ncloud_ses_cluster`"

/-- Lines 296-308: the map added to `masterNodeSet`. -/
def masterNodeElem (cluster : ClusterInfo) : MasterNodeElem :=
  match cluster.MasterNodeCount, cluster.MasterNodeSubnetNo, cluster.MasterNodeProductCode with
  | some _, some _, some productCode =>
    { is_master_only_node_activated := some true,
      count := some (Itoa (Int32Value cluster.MasterNodeCount)),
      subnet_no := some (Itoa (Int32Value cluster.MasterNodeSubnetNo)),
      product_code := some productCode }
  | _, _, _ => { is_master_only_node_activated := some false }

/-- Lines 239-313.  A `d.Set` of a pointer writes the value it points to,
and the zero value for nil; none of the `d.Set` calls can fail on values of
the types of the schema, so the warnings of lines 270-311 are never logged. -/
def resourceNcloudSESClusterRead (config : ProviderConfig) (d : ResourceData) (c : Cloud) :
    Outcome :=
  if !config.SupportVPC then
    { ret := Return.err (NotSupportClassic sesClusterName), d := d, cloud := c }
  else
    match getSESCluster d.id c with
    | (Except.error err, c1) => { ret := Return.err (Error.api err), d := d, cloud := c1 }
    | (Except.ok none, c1) => { ret := Return.nil, d := d.SetId "", cloud := c1 }
    | (Except.ok (some cluster), c1) =>
      let d1 := d.SetId (StringValue cluster.ServiceGroupInstanceNo)
      let d2 : ResourceData :=
        { d1 with attrs :=
          { d1.attrs with
            uuid := stringOrZero cluster.ServiceGroupInstanceNo,
            service_group_instance_no := stringOrZero cluster.ServiceGroupInstanceNo,
            cluster_name := stringOrZero cluster.ClusterName,
            software_product_code := stringOrZero cluster.SoftwareProductCode,
            vpc_no := Itoa (Int32Value cluster.VpcNo),
            login_key_name := stringOrZero cluster.LoginKeyName } }
      match (d2.attrs.search_engine.map SearchEngineElem.read).head? with
      | none => { ret := Return.panic indexOutOfRange, d := d2, cloud := c1 }
      | some searchEngineMap =>
        match cluster.SearchEngineVersionCode, cluster.SearchEngineUserName with
        | some versionCode, some userName =>
          let d3 : ResourceData :=
            { d2 with attrs :=
              { d2.attrs with search_engine :=
                [{ version_code := some versionCode, user_name := some userName,
                   user_password := some searchEngineMap.user_password }] } }
          match cluster.IsDualManager, cluster.ManagerNodeProductCode with
          | some isDualManager, some managerProductCode =>
            let d4 : ResourceData :=
              { d3 with attrs :=
                { d3.attrs with manager_node :=
                  [{ is_dual_manager := some isDualManager,
                     count := some (Itoa (Int32Value cluster.ManagerNodeCount)),
                     subnet_no := some (Itoa (Int32Value cluster.ManagerNodeSubnetNo)),
                     product_code := some managerProductCode }] } }
            match cluster.DataNodeProductCode, cluster.DataNodeStorageSize with
            | some dataProductCode, some storageSize =>
              let d5 : ResourceData :=
                { d4 with attrs :=
                  { d4.attrs with data_node :=
                    [{ count := some (Itoa (Int32Value cluster.DataNodeCount)),
                       subnet_no := some (Itoa (Int32Value cluster.DataNodeSubnetNo)),
                       product_code := some dataProductCode,
                       storage_size := some storageSize }] } }
              let d6 : ResourceData :=
                { d5 with attrs := { d5.attrs with master_node := [masterNodeElem cluster] } }
              { ret := Return.nil, d := d6, cloud := c1 }
            | _, _ => { ret := Return.panic nilDereference, d := d4, cloud := c1 }
          | _, _ => { ret := Return.panic nilDereference, d := d3, cloud := c1 }
        | _, _ => { ret := Return.panic nilDereference, d := d2, cloud := c1 }

/-- Lines 191-237.  The answer of `CreateClusterUsingPOST` is the
`ServiceGroupInstanceNo` pointer of `resp.Result`. -/
def resourceNcloudSESClusterCreate (config : ProviderConfig) (d : ResourceData) (c : Cloud) :
    Outcome :=
  if !config.SupportVPC then
    { ret := Return.err (NotSupportClassic sesClusterName), d := d, cloud := c }
  else
    match (d.attrs.search_engine.map SearchEngineElem.read).head?,
      (d.attrs.data_node.map DataNodeElem.read).head?,
      (d.attrs.manager_node.map ManagerNodeElem.read).head?,
      (d.attrs.master_node.map MasterNodeElem.read).head? with
    | some searchEngineParamsMap, some dataNodeParamsMap, some managerNodeParamsMap,
      some masterNodeParamsMap =>
      let reqParams : CreateClusterRequestVo :=
        { ClusterName :=
            StringPtrOrNil (GetOk d.attrs.cluster_name).1 (GetOk d.attrs.cluster_name).2,
          SearchEngineVersionCode := StringPtrOrNil searchEngineParamsMap.version_code true,
          SearchEngineUserName := StringPtrOrNil searchEngineParamsMap.user_name true,
          SearchEngineUserPassword := StringPtrOrNil searchEngineParamsMap.user_password true,
          SoftwareProductCode :=
            StringPtrOrNil (GetOk d.attrs.software_product_code).1
              (GetOk d.attrs.software_product_code).2,
          VpcNo := getInt32FromString (GetOk d.attrs.vpc_no).1 (GetOk d.attrs.vpc_no).2,
          IsDualManager := BoolPtrOrNil managerNodeParamsMap.is_dual_manager true,
          ManagerNodeProductCode := StringPtrOrNil managerNodeParamsMap.product_code true,
          ManagerNodeSubnetNo := getInt32FromString managerNodeParamsMap.subnet_no true,
          DataNodeProductCode := StringPtrOrNil dataNodeParamsMap.product_code true,
          DataNodeSubnetNo := getInt32FromString dataNodeParamsMap.subnet_no true,
          DataNodeCount := getInt32FromString dataNodeParamsMap.count true,
          DataNodeStorageSize := getInt32FromString dataNodeParamsMap.storage_size true,
          IsMasterOnlyNodeActivated :=
            BoolPtrOrNil masterNodeParamsMap.is_master_only_node_activated true,
          MasterNodeProductCode := StringPtrOrNil masterNodeParamsMap.product_code true,
          MasterNodeSubnetNo := getInt32FromString masterNodeParamsMap.subnet_no true,
          MasterNodeCount := getInt32FromString masterNodeParamsMap.count true,
          LoginKeyName :=
            StringPtrOrNil (GetOk d.attrs.login_key_name).1 (GetOk d.attrs.login_key_name).2 }
      let c1 := c.record (ApiCall.CreateCluster reqParams)
      match c.createCluster c.calls.length reqParams with
      | Except.error err => { ret := Return.err (Error.api err), d := d, cloud := c1 }
      | Except.ok serviceGroupInstanceNo =>
        let uuid := Itoa (Int32Value serviceGroupInstanceNo)
        match waitForSESClusterActive uuid c1 with
        | (some err, c2) => { ret := Return.err err, d := d, cloud := c2 }
        | (none, c2) => resourceNcloudSESClusterRead config (d.SetId uuid) c2
    | _, _, _, _ => { ret := Return.panic indexOutOfRange, d := d, cloud := c }

/-- Lines 202-221: the request `reqParams` of `resourceNcloudSESClusterCreate`,
from the resource data and the first block of each kind. -/
def createClusterRequest (d : ResourceData) (searchEngineParamsMap : SearchEngineMap)
    (dataNodeParamsMap : DataNodeMap) (managerNodeParamsMap : ManagerNodeMap)
    (masterNodeParamsMap : MasterNodeMap) : CreateClusterRequestVo :=
  { ClusterName :=
      StringPtrOrNil (GetOk d.attrs.cluster_name).1 (GetOk d.attrs.cluster_name).2,
    SearchEngineVersionCode := StringPtrOrNil searchEngineParamsMap.version_code true,
    SearchEngineUserName := StringPtrOrNil searchEngineParamsMap.user_name true,
    SearchEngineUserPassword := StringPtrOrNil searchEngineParamsMap.user_password true,
    SoftwareProductCode :=
      StringPtrOrNil (GetOk d.attrs.software_product_code).1
        (GetOk d.attrs.software_product_code).2,
    VpcNo := getInt32FromString (GetOk d.attrs.vpc_no).1 (GetOk d.attrs.vpc_no).2,
    IsDualManager := BoolPtrOrNil managerNodeParamsMap.is_dual_manager true,
    ManagerNodeProductCode := StringPtrOrNil managerNodeParamsMap.product_code true,
    ManagerNodeSubnetNo := getInt32FromString managerNodeParamsMap.subnet_no true,
    DataNodeProductCode := StringPtrOrNil dataNodeParamsMap.product_code true,
    DataNodeSubnetNo := getInt32FromString dataNodeParamsMap.subnet_no true,
    DataNodeCount := getInt32FromString dataNodeParamsMap.count true,
    DataNodeStorageSize := getInt32FromString dataNodeParamsMap.storage_size true,
    IsMasterOnlyNodeActivated :=
      BoolPtrOrNil masterNodeParamsMap.is_master_only_node_activated true,
    MasterNodeProductCode := StringPtrOrNil masterNodeParamsMap.product_code true,
    MasterNodeSubnetNo := getInt32FromString masterNodeParamsMap.subnet_no true,
    MasterNodeCount := getInt32FromString masterNodeParamsMap.count true,
    LoginKeyName :=
      StringPtrOrNil (GetOk d.attrs.login_key_name).1 (GetOk d.attrs.login_key_name).2 }

/-- The call `d.GetChange("search_engine")`: the lists of the prior state
and of the plan, as lists of maps. -/
def ResourceData.GetChange_search_engine (d : ResourceData) :
    List SearchEngineMap × List SearchEngineMap :=
  (d.state.search_engine.map SearchEngineElem.read,
   d.attrs.search_engine.map SearchEngineElem.read)

/-- The call `d.GetChange("data_node")`. -/
def ResourceData.GetChange_data_node (d : ResourceData) :
    List DataNodeMap × List DataNodeMap :=
  (d.state.data_node.map DataNodeElem.read, d.attrs.data_node.map DataNodeElem.read)

/-- The call `d.HasChanges("search_engine")`: old and new value differ. -/
def ResourceData.HasChanges_search_engine (d : ResourceData) : Bool :=
  d.GetChange_search_engine.1 != d.GetChange_search_engine.2

/-- The call `d.HasChanges("data_node")`. -/
def ResourceData.HasChanges_data_node (d : ResourceData) : Bool :=
  d.GetChange_data_node.1 != d.GetChange_data_node.2

/-- Lines 327-354. -/
def checkSearchEngineChanged (d : ResourceData) (c : Cloud) : Return × Cloud :=
  if d.HasChanges_search_engine then
    match d.GetChange_search_engine.1.head?, d.GetChange_search_engine.2.head? with
    | some oldSearchEngineMap, some newSearchEngineMap =>
      if oldSearchEngineMap.user_password != newSearchEngineMap.user_password then
        match waitForSESClusterActive d.id c with
        | (some err, c1) => (Return.err err, c1)
        | (none, c1) =>
          let reqParams : ResetSearchEngineUserPasswordRequestVo :=
            { SearchEngineUserPassword :=
                StringPtrOrNil newSearchEngineMap.user_password true }
          let c2 := c1.record (ApiCall.ResetSearchEngineUserPassword d.id reqParams)
          match c1.resetSearchEngineUserPassword c1.calls.length d.id reqParams with
          | some err => (Return.err (Error.api err), c2)
          | none =>
            match waitForSESClusterActive d.id c2 with
            | (some err, c3) => (Return.err err, c3)
            | (none, c3) => (Return.nil, c3)
      else (Return.nil, c)
    | _, _ => (Return.panic indexOutOfRange, c)
  else (Return.nil, c)

/-- Lines 356-387.  The counts are compared as int32 values, and their
difference is an int32 subtraction. -/
def checkDataNodeChanged (d : ResourceData) (c : Cloud) : Return × Cloud :=
  if d.HasChanges_data_node then
    match d.GetChange_data_node.1.head?, d.GetChange_data_node.2.head? with
    | some oldDataNodeMap, some newDataNodeMap =>
      if oldDataNodeMap.count != newDataNodeMap.count then
        match getInt32FromString oldDataNodeMap.count true,
          getInt32FromString newDataNodeMap.count true with
        | some oldCount, some newCount =>
          if oldCount < newCount then
            match waitForSESClusterActive d.id c with
            | (some err, c1) => (Return.err err, c1)
            | (none, c1) =>
              let reqParams : AddNodesInClusterRequestVo :=
                { NewDataNodeCount :=
                    StringPtrOrNil (Itoa (toInt32 (newCount - oldCount))) true }
              let c2 := c1.record (ApiCall.AddNodesInCluster d.id reqParams)
              match c1.addNodesInCluster c1.calls.length d.id reqParams with
              | some err => (Return.err (Error.api err), c2)
              | none =>
                match waitForSESClusterActive d.id c2 with
                | (some err, c3) => (Return.err err, c3)
                | (none, c3) => (Return.nil, c3)
          else (Return.nil, c)
        | _, _ => (Return.panic nilDereference, c)
      else (Return.nil, c)
    | _, _ => (Return.panic indexOutOfRange, c)
  else (Return.nil, c)

/-- Lines 315-325: the diagnostics of the two checks are dropped; a panic
of a check is a panic of the update. -/
def resourceNcloudSESClusterUpdate (config : ProviderConfig) (d : ResourceData) (c : Cloud) :
    Outcome :=
  if !config.SupportVPC then
    { ret := Return.err (NotSupportClassic sesClusterName), d := d, cloud := c }
  else
    match checkSearchEngineChanged d c with
    | (Return.panic msg, c1) => { ret := Return.panic msg, d := d, cloud := c1 }
    | (_, c1) =>
      match checkDataNodeChanged d c1 with
      | (Return.panic msg, c2) => { ret := Return.panic msg, d := d, cloud := c2 }
      | (_, c2) => { ret := Return.nil, d := d, cloud := c2 }

/-- Lines 389-410. -/
def resourceNcloudSESClusterDelete (config : ProviderConfig) (d : ResourceData) (c : Cloud) :
    Outcome :=
  if !config.SupportVPC then
    { ret := Return.err (NotSupportClassic sesClusterName), d := d, cloud := c }
  else
    match waitForSESClusterActive d.id c with
    | (some err, c1) => { ret := Return.err err, d := d, cloud := c1 }
    | (none, c1) =>
      let c2 := c1.record (ApiCall.DeleteCluster d.id)
      match c1.deleteCluster c1.calls.length d.id with
      | some err => { ret := Return.err (Error.api err), d := d, cloud := c2 }
      | none =>
        match waitForSESClusterDeletion d.id c2 with
        | (some err, c3) => { ret := Return.err err, d := d, cloud := c3 }
        | (none, c3) => { ret := Return.nil, d := d, cloud := c3 }

/-! ## data_source_ncloud_ses_versions.go -/

/-- A `filter` block of a data source. -/
structure FilterSpec where
  name : String
  values : List String
  regex : Bool
  deriving DecidableEq, Repr

/-- An element of `versions`: the map built at lines 81-84. -/
structure VersionMap where
  value : String
  label : String
  deriving DecidableEq, Repr

/-- The resource data of `ncloud_ses_versions`. -/
structure VersionsData where
  id : String
  filter : List FilterSpec
  versions : List VersionMap
  deriving DecidableEq, Repr

/-- A reading of the clock, in UTC. -/
structure Time where
  year : Nat
  month : Nat
  day : Nat
  hour : Nat
  minute : Nat
  second : Nat
  nanosecond : Nat
  deriving DecidableEq, Repr

/-- A number in decimal, padded with zeros on the left to `width` digits. -/
def zeroPad (width n : Nat) : String :=
  String.mk (List.replicate (width - (Nat.repr n).length) '0') ++ Nat.repr n

/-- The fraction of a second as Go prints it with the layout ".999999999":
nothing for zero, else the nine digits without the zeros at the end. -/
def fractionString (nanosecond : Nat) : String :=
  if nanosecond = 0 then ""
  else "." ++ String.mk ((zeroPad 9 nanosecond).data.reverse.dropWhile (· == '0')).reverse

/-- The method `Time.String` on a time in UTC: the layout
"2006-01-02 15:04:05.999999999 -0700 MST". -/
def Time.String (t : Time) : String :=
  zeroPad 4 t.year ++ "-" ++ zeroPad 2 t.month ++ "-" ++ zeroPad 2 t.day ++ " " ++
    zeroPad 2 t.hour ++ ":" ++ zeroPad 2 t.minute ++ ":" ++ zeroPad 2 t.second ++
    fractionString t.nanosecond ++ " +0000 UTC"

/-- The result of a function that returns a value and an error, or panics. -/
inductive Result (α : Type) where
  | ok (a : α)
  | err (e : Error)
  | panic (msg : String)
  deriving DecidableEq, Repr

/-- Lines 66-90 of data_source_ncloud_ses_versions.go. -/
def getSESVersion (c : Cloud) : Except Error (List VersionMap) × Cloud :=
  let c1 := c.record (ApiCall.GetElasticsearchVersionList 1)
  match c.getElasticsearchVersionList c.calls.length with
  | Except.error err => (Except.error (Error.api err), c1)
  | Except.ok elasticSearchVersionList =>
    (Except.ok (elasticSearchVersionList.foldl
      (fun resources r =>
        resources ++ [{ value := StringValue (some r.ElasticSearchVersionCode),
                        label := StringValue (some r.ElasticSearchVersionName) }]) []), c1)

/-- The name the data source passes to `NotSupportClassic`. -/
def sesVersionsName : String := "datasource `ncloud_ses_versions`"

/-- Lines 42-64 of data_source_ncloud_ses_versions.go.  `ApplyFilters` is
not under src/ and is a parameter; `now` is the reading of `time.Now()`.
The `d.Set` of a list of maps of two strings cannot fail. -/
def dataSourceNcloudSESVersionsRead
    (ApplyFilters : List FilterSpec → List VersionMap → List VersionMap) (now : Time)
    (config : ProviderConfig) (d : VersionsData) (c : Cloud) :
    Option Error × VersionsData × Cloud :=
  if !config.SupportVPC then (some (NotSupportClassic sesVersionsName), d, c)
  else
    match getSESVersion c with
    | (Except.error err, c1) => (some err, d, c1)
    | (Except.ok resources, c1) =>
      let resources1 :=
        if !d.filter.isEmpty then ApplyFilters d.filter resources else resources
      (none, { d with id := now.String, versions := resources1 }, c1)

/-! ## data_source_ncloud_server_product.go -/

/-- The resource data of `ncloud_server_product` (lines 20-92): the
arguments of the configuration, then the computed attributes. -/
structure ServerProductData where
  id : String
  server_image_product_code : String
  product_code : String
  zone : String
  internet_line_type_code : String
  filter : List FilterSpec
  product_name_regex : String
  exclusion_product_code : String
  product_name : String
  product_type : String
  product_description : String
  infra_resource_type : String
  cpu_count : Int
  memory_size : String
  base_block_storage_size : String
  disk_type : String
  generation_code : String
  deriving DecidableEq, Repr

/-- The map built for one product at lines 160-172 and 203-215. -/
structure ProductMap where
  id : String
  product_code : String
  product_name : String
  product_type : String
  product_description : String
  infra_resource_type : String
  cpu_count : Int
  memory_size : String
  base_block_storage_size : String
  disk_type : String
  generation_code : String
  deriving DecidableEq, Repr

/-- Modelled from the spec: the constant `GIGABYTE` is not under src/; it is
the number of bytes of a gigabyte. -/
def GIGABYTE : Int := 1024 * 1024 * 1024

/-- The format `fmt.Sprintf("%dGB", v)`. -/
def gigabytes (v : Int) : String := Itoa v ++ "GB"

/-- Lines 160-172 and 203-215: the map of one product; `none` when a
dereference meets nil. -/
def productInstance (r : Product) : Option ProductMap :=
  match r.ProductCode, r.ProductName, r.ProductType, r.ProductDescription,
    r.InfraResourceType, r.CpuCount, r.MemorySize, r.BaseBlockStorageSize, r.DiskType,
    r.GenerationCode with
  | some productCode, some productName, some (some productType), some productDescription,
    some (some infraResourceType), some cpuCount, some memorySize,
    some baseBlockStorageSize, some (some diskType), some generationCode =>
    some { id := productCode, product_code := productCode, product_name := productName,
           product_type := productType, product_description := productDescription,
           infra_resource_type := infraResourceType, cpu_count := cpuCount,
           memory_size := gigabytes (Int.tdiv memorySize GIGABYTE),
           base_block_storage_size := gigabytes (Int.tdiv baseBlockStorageSize GIGABYTE),
           disk_type := diskType, generation_code := generationCode }
  | _, _, _, _, _, _, _, _, _, _ => none

/-- Lines 141-147: the request of the classic path. -/
def classicRequest (config : ProviderConfig) (d : ServerProductData) (zoneNo : Option String) :
    ClassicGetServerProductListRequest :=
  { ExclusionProductCode :=
      StringPtrOrNil (GetOk d.exclusion_product_code).1 (GetOk d.exclusion_product_code).2,
    ServerImageProductCode := some d.server_image_product_code,
    ProductCode := StringPtrOrNil (GetOk d.product_code).1 (GetOk d.product_code).2,
    RegionNo := some config.RegionNo,
    ZoneNo := zoneNo }

/-- Lines 133-178.  `parseZoneNoParameter` is not under src/ and is a
parameter. -/
def getClassicServerProductList
    (parseZoneNoParameter : ProviderConfig → ServerProductData → Except Error (Option String))
    (config : ProviderConfig) (d : ServerProductData) (c : Cloud) :
    Result (List ProductMap) × Cloud :=
  match parseZoneNoParameter config d with
  | Except.error err => (Result.err err, c)
  | Except.ok zoneNo =>
    let reqParams := classicRequest config d zoneNo
    let c1 := c.record (ApiCall.ClassicGetServerProductList reqParams)
    match c.classicGetServerProductList c.calls.length reqParams with
    | Except.error err => (Result.err (Error.api err), c1)
    | Except.ok productList =>
      match productList.mapM productInstance with
      | some resources => (Result.ok resources, c1)
      | none => (Result.panic nilDereference, c1)

/-- Lines 184-190: the request of the VPC path. -/
def vpcRequest (config : ProviderConfig) (d : ServerProductData) :
    VpcGetServerProductListRequest :=
  { ExclusionProductCode :=
      StringPtrOrNil (GetOk d.exclusion_product_code).1 (GetOk d.exclusion_product_code).2,
    ServerImageProductCode := some d.server_image_product_code,
    ProductCode := StringPtrOrNil (GetOk d.product_code).1 (GetOk d.product_code).2,
    RegionCode := some config.RegionCode,
    ZoneCode := StringPtrOrNil (GetOk d.zone).1 (GetOk d.zone).2 }

/-- Lines 180-221. -/
def getVpcServerProductList (config : ProviderConfig) (d : ServerProductData) (c : Cloud) :
    Result (List ProductMap) × Cloud :=
  let reqParams := vpcRequest config d
  let c1 := c.record (ApiCall.VpcGetServerProductList reqParams)
  match c.vpcGetServerProductList c.calls.length reqParams with
  | Except.error err => (Result.err (Error.api err), c1)
  | Except.ok productList =>
    match productList.mapM productInstance with
    | some resources => (Result.ok resources, c1)
    | none => (Result.panic nilDereference, c1)

/-- Lines 112-131.  `ApplyFilters` is not under src/ and is a parameter. -/
def getServerProductListFiltered
    (ApplyFilters : List FilterSpec → List ProductMap → List ProductMap)
    (parseZoneNoParameter : ProviderConfig → ServerProductData → Except Error (Option String))
    (config : ProviderConfig) (d : ServerProductData) (c : Cloud) :
    Result (List ProductMap) × Cloud :=
  match (if config.SupportVPC == true then getVpcServerProductList config d c
    else getClassicServerProductList parseZoneNoParameter config d c) with
  | (Result.ok resources, c1) =>
    if !d.filter.isEmpty then (Result.ok (ApplyFilters d.filter resources), c1)
    else (Result.ok resources, c1)
  | (Result.err err, c1) => (Result.err err, c1)
  | (Result.panic msg, c1) => (Result.panic msg, c1)

/-- Modelled from the spec: the helper `validateOneResult` is not under
src/; it returns an error for a count below one and for a count above one,
and nil for one. -/
def validateOneResult (resultCount : Nat) : Option Error :=
  if resultCount < 1 then some (Error.validateOneResult resultCount)
  else if resultCount > 1 then some (Error.validateOneResult resultCount)
  else none

/-- Modelled from the spec: the helper `SetSingularResourceDataFromMap` is
not under src/; it sets the ID to the "id" of the map and every other key of
the map as the attribute of that name. -/
def SetSingularResourceDataFromMap (d : ServerProductData) (resource : ProductMap) :
    ServerProductData :=
  { d with
    id := resource.id,
    product_code := resource.product_code,
    product_name := resource.product_name,
    product_type := resource.product_type,
    product_description := resource.product_description,
    infra_resource_type := resource.infra_resource_type,
    cpu_count := resource.cpu_count,
    memory_size := resource.memory_size,
    base_block_storage_size := resource.base_block_storage_size,
    disk_type := resource.disk_type,
    generation_code := resource.generation_code }

/-- What the read of the data source leaves behind. -/
structure ServerProductOutcome where
  ret : Return
  d : ServerProductData
  cloud : Cloud

/-- Lines 96-110. -/
def dataSourceNcloudServerProductRead
    (ApplyFilters : List FilterSpec → List ProductMap → List ProductMap)
    (parseZoneNoParameter : ProviderConfig → ServerProductData → Except Error (Option String))
    (config : ProviderConfig) (d : ServerProductData) (c : Cloud) : ServerProductOutcome :=
  match getServerProductListFiltered ApplyFilters parseZoneNoParameter config d c with
  | (Result.err err, c1) => { ret := Return.err err, d := d, cloud := c1 }
  | (Result.panic msg, c1) => { ret := Return.panic msg, d := d, cloud := c1 }
  | (Result.ok resources, c1) =>
    match validateOneResult resources.length with
    | some err => { ret := Return.err err, d := d, cloud := c1 }
    | none =>
      match resources.head? with
      | none => { ret := Return.panic indexOutOfRange, d := d, cloud := c1 }
      | some resource =>
        { ret := Return.nil, d := SetSingularResourceDataFromMap d resource, cloud := c1 }

/-! ## Observations on the call log -/

/-- The calls an operation made: those logged in `c1` after the ones of `c`. -/
def newCalls (c c1 : Cloud) : List ApiCall := c1.calls.drop c.calls.length

/-- Whether a call is a `ResetSearchEngineUserPasswordUsingPOST`. -/
def ApiCall.isResetSearchEngineUserPassword : ApiCall → Bool
  | ApiCall.ResetSearchEngineUserPassword _ _ => true
  | _ => false

/-- Whether a call is an `AddNodesInClusterUsingPOST`. -/
def ApiCall.isAddNodesInCluster : ApiCall → Bool
  | ApiCall.AddNodesInCluster _ _ => true
  | _ => false

/-- Whether the old and the new first `search_engine` block both exist and
differ in `user_password`. -/
def passwordDiffers (d : ResourceData) : Bool :=
  match d.GetChange_search_engine.1.head?, d.GetChange_search_engine.2.head? with
  | some oldSearchEngineMap, some newSearchEngineMap =>
    oldSearchEngineMap.user_password != newSearchEngineMap.user_password
  | _, _ => false

/-- Whether a call is a `DeleteClusterUsingDELETE`. -/
def ApiCall.isDeleteCluster : ApiCall → Bool
  | ApiCall.DeleteCluster _ => true
  | _ => false

/-- Whether a function ended in a panic. -/
def Return.isPanic : Return → Bool
  | Return.panic _ => true
  | _ => false

/-! ## Sample inputs -/

/-- A cluster with every field present, in the given status. -/
def sampleCluster (status : String) : ClusterInfo :=
  { ServiceGroupInstanceNo := some "7", ClusterName := some "es", ClusterStatus := some status,
    SoftwareProductCode := some "SW.VELST.OS.LNX64.CNTOS.0708.B050", VpcNo := some 11,
    LoginKeyName := some "key", SearchEngineVersionCode := some "133",
    SearchEngineUserName := some "admin", IsDualManager := some false,
    ManagerNodeCount := some 1, ManagerNodeSubnetNo := some 21,
    ManagerNodeProductCode := some "P1", DataNodeCount := some 3, DataNodeSubnetNo := some 21,
    DataNodeProductCode := some "P2", DataNodeStorageSize := some "100",
    MasterNodeCount := some 3, MasterNodeSubnetNo := some 21, MasterNodeProductCode := some "P3" }

/-- A cloud that answers the lookups from a script (no cluster once the
script is used up) and lets every other call succeed. -/
def scriptedCloud (script : List (Except String (Option ClusterInfo))) (polls : Nat) : Cloud :=
  { getClusterInfo := fun t _ => script.getD t (Except.ok none),
    createCluster := fun _ _ => Except.ok (some 7),
    resetSearchEngineUserPassword := fun _ _ _ => none,
    addNodesInCluster := fun _ _ _ => none,
    deleteCluster := fun _ _ => none,
    getElasticsearchVersionList := fun _ => Except.ok [],
    classicGetServerProductList := fun _ _ => Except.ok [],
    vpcGetServerProductList := fun _ _ => Except.ok [],
    pollsBeforeTimeout := polls,
    calls := [] }


/-- The attributes of a cluster with one block of each kind. -/
def sampleAttrs (password count : String) : Attrs :=
  { uuid := "7", service_group_instance_no := "7", cluster_name := "es",
    software_product_code := "SW.VELST.OS.LNX64.CNTOS.0708.B050", vpc_no := "11",
    search_engine :=
      [{ version_code := some "133", user_name := some "admin",
         user_password := some password }],
    manager_node :=
      [{ is_dual_manager := some false, subnet_no := some "21", product_code := some "P1",
         count := some "1" }],
    data_node :=
      [{ subnet_no := some "21", product_code := some "P2", count := some count,
         storage_size := some "100" }],
    master_node := [{ is_master_only_node_activated := some false }],
    login_key_name := "key" }

/-- The resource data of an update that changes the password and the number
of data nodes. -/
def sampleUpdate (oldPassword newPassword oldCount newCount : String) : ResourceData :=
  { id := "7", state := sampleAttrs oldPassword oldCount,
    attrs := sampleAttrs newPassword newCount }

/-- A configuration with VPC support. -/
def vpcConfig : ProviderConfig := { SupportVPC := true, RegionNo := "1", RegionCode := "KR" }

/-- A configuration of the classic platform. -/
def classicConfig : ProviderConfig := { SupportVPC := false, RegionNo := "1", RegionCode := "KR" }

/-- The attributes of a resource of which nothing is set. -/
def emptyAttrs : Attrs :=
  { uuid := "", service_group_instance_no := "", cluster_name := "", software_product_code := "",
    vpc_no := "", search_engine := [], manager_node := [], data_node := [], master_node := [],
    login_key_name := "" }

/-- The resource data the passthrough importer hands to Read: the ID alone. -/
def importedData (id : String) : ResourceData :=
  { id := id, state := emptyAttrs, attrs := emptyAttrs }

/-- The configuration of a server product data source. -/
def sampleProductData (exclusionProductCode : String) : ServerProductData :=
  { id := "", server_image_product_code := "SW.VSVR.OS.LNX64.CNTOS.0703.B050",
    product_code := "", zone := "KR-1", internet_line_type_code := "", filter := [],
    product_name_regex := "", exclusion_product_code := exclusionProductCode,
    product_name := "", product_type := "", product_description := "",
    infra_resource_type := "", cpu_count := 0, memory_size := "",
    base_block_storage_size := "", disk_type := "", generation_code := "" }

/-- A server product with every field present. -/
def sampleProduct (code : String) : Product :=
  { ProductCode := some code, ProductName := some "vCPU 2EA, Memory 4GB",
    ProductType := some (some "STAND"), ProductDescription := some "standard server",
    InfraResourceType := some (some "SVR"), CpuCount := some 2,
    MemorySize := some 4294967296, BaseBlockStorageSize := some 53687091200,
    DiskType := some (some "NET"), GenerationCode := some "G2" }

/-- A cloud whose VPC product list is the given one. -/
def productCloud (products : List Product) : Cloud :=
  { scriptedCloud [] 5 with vpcGetServerProductList := fun _ _ => Except.ok products }

/-- A cloud that answers the lookups from a script and refuses the password
reset. -/
def resetRefusingCloud (script : List (Except String (Option ClusterInfo))) (polls : Nat) :
    Cloud :=
  { scriptedCloud script polls with
    resetSearchEngineUserPassword := fun _ _ _ => some "denied" }

/-- An update whose prior state holds no `search_engine` block. -/
def updateWithoutOldSearchEngine : ResourceData :=
  { id := "7", state := { sampleAttrs "old" "3" with search_engine := [] },
    attrs := sampleAttrs "new" "3" }

/-- A running cluster, as the answer of every one of the first `n` lookups. -/
def runningScript (n : Nat) : List (Except String (Option ClusterInfo)) :=
  List.replicate n (Except.ok (some (sampleCluster "running")))
/-! ## Lemmas on the polling loop -/

theorem Cloud.polled_zero (c : Cloud) (uuid : String) : c.polled uuid 0 = c := by
  simp [Cloud.polled]

theorem Cloud.record_polled (c : Cloud) (uuid : String) (n : Nat) :
    (c.record (ApiCall.GetClusterInfo uuid)).polled uuid n = c.polled uuid (n + 1) := by
  simp [Cloud.polled, Cloud.record, List.replicate_succ]

theorem activeRefresh_eq (uuid : String) (c : Cloud) :
    waitForSESClusterActive.Refresh uuid c =
      (match c.getClusterInfo c.calls.length uuid with
        | Except.error err => { resultIsNil := true, state := "", err := some err }
        | Except.ok x =>
          { resultIsNil := false, state := (reportedStatus (Except.ok x)).getD "", err := none },
       c.record (ApiCall.GetClusterInfo uuid)) := by
  unfold waitForSESClusterActive.Refresh getSESCluster
  cases h : c.getClusterInfo c.calls.length uuid with
  | error e => rfl
  | ok x => cases x <;> rfl

theorem deletionRefresh_eq_activeRefresh :
    waitForSESClusterDeletion.Refresh = waitForSESClusterActive.Refresh := rfl

/-- The loop over the active refresh ends at the first answer whose verdict
is final, after exactly that many lookups. -/
theorem loop_first_verdict (conf : StateChangeConf) (uuid : String) (r : Option WaitError) :
    ∀ (n fuel notfoundTick : Nat) (lastState : String) (c : Cloud),
      n < fuel →
      (∀ i, i < n → pollVerdict conf (c.getClusterInfo (c.calls.length + i) uuid) = none) →
      pollVerdict conf (c.getClusterInfo (c.calls.length + n) uuid) = some r →
      WaitForStateContext.loop conf (waitForSESClusterActive.Refresh uuid)
        fuel notfoundTick lastState c = (r, c.polled uuid (n + 1)) := by
  intro n
  induction n with
  | zero =>
    intro fuel nf last c hf _ hv
    obtain ⟨f, rfl⟩ : ∃ f, fuel = f + 1 := ⟨fuel - 1, by omega⟩
    rw [WaitForStateContext.loop, activeRefresh_eq]
    simp only [Nat.add_zero] at hv
    rw [← Cloud.record_polled, Cloud.polled_zero]
    cases hresp : c.getClusterInfo c.calls.length uuid with
    | error e =>
      rw [hresp] at hv
      simp [pollVerdict] at hv
      simp [hv]
    | ok x =>
      rw [hresp] at hv
      simp only [pollVerdict] at hv
      simp only [Bool.false_eq_true, if_false]
      split_ifs at hv with h1 h2 h3
      · simp only [Option.some.injEq] at hv
        subst hv
        simp at h1
        simp [h1]
      · simp only [Option.some.injEq] at hv
        subst hv
        simp at h1 h2 h3
        simp [h1, h2, h3]
  | succ n ih =>
    intro fuel nf last c hf hp hv
    obtain ⟨f, rfl⟩ : ∃ f, fuel = f + 1 := ⟨fuel - 1, by omega⟩
    have h0 := hp 0 (Nat.succ_pos n)
    simp only [Nat.add_zero] at h0
    have hrec : ∀ s, WaitForStateContext.loop conf (waitForSESClusterActive.Refresh uuid) f 0 s
        (c.record (ApiCall.GetClusterInfo uuid)) = (r, c.polled uuid (n + 1 + 1)) := by
      intro s
      rw [← Cloud.record_polled]
      apply ih f 0 s _ (by omega)
      · intro i hi
        have := hp (i + 1) (by omega)
        simpa [Cloud.record, Nat.add_assoc, Nat.add_comm 1 i] using this
      · simpa [Cloud.record, Nat.add_assoc, Nat.add_comm 1 n] using hv
    rw [WaitForStateContext.loop, activeRefresh_eq]
    cases hresp : c.getClusterInfo c.calls.length uuid with
    | error e =>
      rw [hresp] at h0
      simp [pollVerdict] at h0
    | ok x =>
      rw [hresp] at h0
      simp only [pollVerdict] at h0
      simp only [Bool.false_eq_true, if_false]
      split_ifs at h0 with h1 h2 h3
      · simp at h1 h2
        simp [h1, h2, hrec]
      · simp at h1 h2 h3
        simp [h1, h2, h3, hrec]

/-- The loop polls on while every answer says so, until the fuel is used up. -/
theorem loop_all_pending (conf : StateChangeConf) (uuid : String) :
    ∀ (n notfoundTick : Nat) (lastState : String) (c : Cloud),
      (∀ i, i < n → pollVerdict conf (c.getClusterInfo (c.calls.length + i) uuid) = none) →
      ∃ last, WaitForStateContext.loop conf (waitForSESClusterActive.Refresh uuid)
        n notfoundTick lastState c = (some (WaitError.timeout last), c.polled uuid n) := by
  intro n
  induction n with
  | zero =>
    intro nf last c _
    exact ⟨last, by rw [WaitForStateContext.loop, Cloud.polled_zero]⟩
  | succ n ih =>
    intro nf last c hp
    have h0 := hp 0 (Nat.succ_pos n)
    simp only [Nat.add_zero] at h0
    have hrec : ∀ s, ∃ last, WaitForStateContext.loop conf (waitForSESClusterActive.Refresh uuid)
        n 0 s (c.record (ApiCall.GetClusterInfo uuid)) =
        (some (WaitError.timeout last), c.polled uuid (n + 1)) := by
      intro s
      rw [← Cloud.record_polled]
      apply ih 0 s
      intro i hi
      have := hp (i + 1) (by omega)
      simpa [Cloud.record, Nat.add_assoc, Nat.add_comm 1 i] using this
    rw [WaitForStateContext.loop, activeRefresh_eq]
    cases hresp : c.getClusterInfo c.calls.length uuid with
    | error e =>
      rw [hresp] at h0
      simp [pollVerdict] at h0
    | ok x =>
      rw [hresp] at h0
      simp only [pollVerdict] at h0
      simp only [Bool.false_eq_true, if_false]
      obtain ⟨last1, hlast⟩ := hrec ((reportedStatus (Except.ok x)).getD "")
      refine ⟨last1, ?_⟩
      split_ifs at h0 with h1 h2 h3
      · simp at h1 h2
        simp [h1, h2, hlast]
      · simp at h1 h2 h3
        simp [h1, h2, h3, hlast]

theorem pollVerdict_of_status (conf : StateChangeConf) (r : Except String (Option ClusterInfo))
    (s : String) (h : reportedStatus r = some s) :
    pollVerdict conf r =
      if conf.Target.contains s then some none
      else if conf.Pending.contains s then none
      else if conf.Pending.length > 0 then some (some (WaitError.unexpectedState s))
      else none := by
  cases r with
  | error e => simp [reportedStatus] at h
  | ok x => simp [pollVerdict, h]

theorem pollVerdict_of_error (conf : StateChangeConf) (e : String) :
    pollVerdict conf (Except.error e) = some (some (WaitError.refresh e)) := rfl

theorem waitForSESClusterActive_eq (uuid : String) (c : Cloud) :
    waitForSESClusterActive uuid c =
      ((WaitForStateContext.loop activeConf (waitForSESClusterActive.Refresh uuid)
          c.pollsBeforeTimeout 0 "" c).1.map (Error.waitActive uuid),
       (WaitForStateContext.loop activeConf (waitForSESClusterActive.Refresh uuid)
          c.pollsBeforeTimeout 0 "" c).2) := by
  unfold waitForSESClusterActive WaitForStateContext
  simp only [activeConf]
  split <;> rename_i h <;> simp [h]

theorem waitForSESClusterDeletion_eq (id : String) (c : Cloud) :
    waitForSESClusterDeletion id c =
      ((WaitForStateContext.loop deletionConf (waitForSESClusterActive.Refresh id)
          c.pollsBeforeTimeout 0 "" c).1.map (Error.waitDeletion id),
       (WaitForStateContext.loop deletionConf (waitForSESClusterActive.Refresh id)
          c.pollsBeforeTimeout 0 "" c).2) := by
  unfold waitForSESClusterDeletion WaitForStateContext
  rw [deletionRefresh_eq_activeRefresh]
  simp only [deletionConf]
  split <;> rename_i h <;> simp [h]



/-! ## C1 and C2: the waits -/

/-- C1: `waitForSESClusterActive` keeps polling while the reported status is
"creating" or "changing": when the first `n` answers are such and the
timeout leaves room for one more lookup, the answer number `n` decides the
wait after exactly `n + 1` lookups.  It returns nil when that status is
"running", and an error on a lookup error, on the status "null" of a lookup
that finds no cluster, and on any other status. -/
theorem waitForSESClusterActive_outcome (uuid : String) (c : Cloud) (n : Nat)
    (hfuel : n < c.pollsBeforeTimeout)
    (hpend : ∀ i, i < n →
      reportedStatus (c.getClusterInfo (c.calls.length + i) uuid) = some "creating" ∨
      reportedStatus (c.getClusterInfo (c.calls.length + i) uuid) = some "changing") :
    (reportedStatus (c.getClusterInfo (c.calls.length + n) uuid) = some "running" →
      waitForSESClusterActive uuid c = (none, c.polled uuid (n + 1))) ∧
    (∀ e, c.getClusterInfo (c.calls.length + n) uuid = Except.error e →
      waitForSESClusterActive uuid c =
        (some (Error.waitActive uuid (WaitError.refresh e)), c.polled uuid (n + 1))) ∧
    (c.getClusterInfo (c.calls.length + n) uuid = Except.ok none →
      waitForSESClusterActive uuid c =
        (some (Error.waitActive uuid (WaitError.unexpectedState "null")),
          c.polled uuid (n + 1))) ∧
    (∀ s, reportedStatus (c.getClusterInfo (c.calls.length + n) uuid) = some s →
      s ≠ "creating" → s ≠ "changing" → s ≠ "running" →
      waitForSESClusterActive uuid c =
        (some (Error.waitActive uuid (WaitError.unexpectedState s)), c.polled uuid (n + 1))) := by
  have hp : ∀ i, i < n →
      pollVerdict activeConf (c.getClusterInfo (c.calls.length + i) uuid) = none := by
    intro i hi
    rcases hpend i hi with h | h
    · rw [pollVerdict_of_status _ _ _ h]; decide
    · rw [pollVerdict_of_status _ _ _ h]; decide
  have key : ∀ r, pollVerdict activeConf (c.getClusterInfo (c.calls.length + n) uuid) = some r →
      waitForSESClusterActive uuid c = (r.map (Error.waitActive uuid), c.polled uuid (n + 1)) := by
    intro r hr
    rw [waitForSESClusterActive_eq,
      loop_first_verdict activeConf uuid r n c.pollsBeforeTimeout 0 "" c hfuel hp hr]
  have hother : ∀ s, reportedStatus (c.getClusterInfo (c.calls.length + n) uuid) = some s →
      s ≠ "creating" → s ≠ "changing" → s ≠ "running" →
      waitForSESClusterActive uuid c =
        (some (Error.waitActive uuid (WaitError.unexpectedState s)), c.polled uuid (n + 1)) := by
    intro s hs h1 h2 h3
    apply key (some (WaitError.unexpectedState s))
    rw [pollVerdict_of_status _ _ _ hs]
    simp [activeConf, SESStatusRunningCode, SESStatusCreatingCode, SESStatusChangingCode,
      h1, h2, h3]
  refine ⟨?_, ?_, ?_, hother⟩
  · intro h
    apply key none
    rw [pollVerdict_of_status _ _ _ h]; decide
  · intro e he
    apply key (some (WaitError.refresh e))
    rw [he]; rfl
  · intro h
    apply hother "null" (by rw [h]; rfl) (by decide) (by decide) (by decide)

/-- C1, witness: two pending answers, then "running". -/
theorem waitForSESClusterActive_outcome_witness :
    waitForSESClusterActive "7"
        (scriptedCloud [Except.ok (some (sampleCluster "creating")),
          Except.ok (some (sampleCluster "changing")),
          Except.ok (some (sampleCluster "running"))] 5) =
      (none, (scriptedCloud [Except.ok (some (sampleCluster "creating")),
          Except.ok (some (sampleCluster "changing")),
          Except.ok (some (sampleCluster "running"))] 5).polled "7" 3) :=
  (waitForSESClusterActive_outcome "7" _ 2 (by decide) (by decide)).1 (by decide)

/-- The loop returns nil exactly when the first answer that does not ask for
another poll comes before the timeout and reports a target state. -/
theorem loop_none_iff (conf : StateChangeConf) (uuid : String) (fuel : Nat) (c : Cloud) :
    (WaitForStateContext.loop conf (waitForSESClusterActive.Refresh uuid) fuel 0 "" c).1 = none ↔
      ∃ n, n < fuel ∧
        (∀ i, i < n → pollVerdict conf (c.getClusterInfo (c.calls.length + i) uuid) = none) ∧
        pollVerdict conf (c.getClusterInfo (c.calls.length + n) uuid) = some none := by
  constructor
  · intro hres
    by_cases h : ∃ n, n < fuel ∧
        pollVerdict conf (c.getClusterInfo (c.calls.length + n) uuid) ≠ none
    · have hspec := Nat.find_spec h
      have hmin : ∀ i, i < Nat.find h →
          pollVerdict conf (c.getClusterInfo (c.calls.length + i) uuid) = none := by
        intro i hi
        have := Nat.find_min h hi
        by_contra hne
        exact this ⟨by omega, hne⟩
      obtain ⟨r, hr⟩ := Option.ne_none_iff_exists'.mp hspec.2
      rw [loop_first_verdict conf uuid r (Nat.find h) fuel 0 "" c hspec.1 hmin hr] at hres
      simp only at hres
      subst hres
      exact ⟨Nat.find h, hspec.1, hmin, hr⟩
    · have hall : ∀ i, i < fuel →
          pollVerdict conf (c.getClusterInfo (c.calls.length + i) uuid) = none := by
        intro i hi
        by_contra hne
        exact h ⟨i, hi, hne⟩
      obtain ⟨last, hlast⟩ := loop_all_pending conf uuid fuel 0 "" c hall
      rw [hlast] at hres
      simp at hres
  · rintro ⟨n, hn, hp, hv⟩
    rw [loop_first_verdict conf uuid none n fuel 0 "" c hn hp hv]

theorem deletion_verdict_pending (r : Except String (Option ClusterInfo)) :
    pollVerdict deletionConf r = none ↔
      (reportedStatus r = some "running" ∨ reportedStatus r = some "deleting") := by
  cases r with
  | error e => simp [pollVerdict, reportedStatus]
  | ok x =>
    obtain ⟨s, hs⟩ : ∃ s, reportedStatus (Except.ok x : Except String _) = some s := by
      cases x <;> simp [reportedStatus]
    rw [pollVerdict_of_status _ _ _ hs, hs]
    simp only [deletionConf, SESStatusRunningCode, SESStatusDeletingCode, SESStatusReturnCode]
    by_cases h1 : s = "return"
    · subst h1; decide
    · by_cases h2 : s = "running"
      · subst h2; decide
      · by_cases h3 : s = "deleting"
        · subst h3; decide
        · simp [h1, h2, h3]

theorem deletion_verdict_done (r : Except String (Option ClusterInfo)) :
    pollVerdict deletionConf r = some none ↔ reportedStatus r = some "return" := by
  cases r with
  | error e => simp [pollVerdict, reportedStatus]
  | ok x =>
    obtain ⟨s, hs⟩ : ∃ s, reportedStatus (Except.ok x : Except String _) = some s := by
      cases x <;> simp [reportedStatus]
    rw [pollVerdict_of_status _ _ _ hs, hs]
    simp only [deletionConf, SESStatusRunningCode, SESStatusDeletingCode, SESStatusReturnCode]
    by_cases h1 : s = "return"
    · subst h1; decide
    · by_cases h2 : s = "running"
      · subst h2; decide
      · by_cases h3 : s = "deleting"
        · subst h3; decide
        · simp [h1, h2, h3]

/-- C2: `waitForSESClusterDeletion` returns nil exactly when, before the
timeout, the lookups report "running" or "deleting" up to one that reports
"return"; and after any run of "running" or "deleting" answers the next
answer ends the wait, after exactly that many lookups: with nil on
"return", with an error on a lookup error, on the status "null" of a lookup
that finds no cluster, and on any other status. -/
theorem waitForSESClusterDeletion_outcome (id : String) (c : Cloud) :
    ((waitForSESClusterDeletion id c).1 = none ↔
      ∃ n, n < c.pollsBeforeTimeout ∧
        (∀ i, i < n →
          reportedStatus (c.getClusterInfo (c.calls.length + i) id) = some "running" ∨
          reportedStatus (c.getClusterInfo (c.calls.length + i) id) = some "deleting") ∧
        reportedStatus (c.getClusterInfo (c.calls.length + n) id) = some "return") ∧
    (∀ n, n < c.pollsBeforeTimeout →
      (∀ i, i < n →
        reportedStatus (c.getClusterInfo (c.calls.length + i) id) = some "running" ∨
        reportedStatus (c.getClusterInfo (c.calls.length + i) id) = some "deleting") →
      (reportedStatus (c.getClusterInfo (c.calls.length + n) id) = some "return" →
        waitForSESClusterDeletion id c = (none, c.polled id (n + 1))) ∧
      (∀ e, c.getClusterInfo (c.calls.length + n) id = Except.error e →
        waitForSESClusterDeletion id c =
          (some (Error.waitDeletion id (WaitError.refresh e)), c.polled id (n + 1))) ∧
      (c.getClusterInfo (c.calls.length + n) id = Except.ok none →
        waitForSESClusterDeletion id c =
          (some (Error.waitDeletion id (WaitError.unexpectedState "null")),
            c.polled id (n + 1))) ∧
      (∀ s, reportedStatus (c.getClusterInfo (c.calls.length + n) id) = some s →
        s ≠ "running" → s ≠ "deleting" → s ≠ "return" →
        waitForSESClusterDeletion id c =
          (some (Error.waitDeletion id (WaitError.unexpectedState s)),
            c.polled id (n + 1)))) := by
  constructor
  · rw [waitForSESClusterDeletion_eq]
    simp only [Option.map_eq_none']
    rw [loop_none_iff]
    simp only [deletion_verdict_pending, deletion_verdict_done]
  · intro n hfuel hpend
    have hp : ∀ i, i < n →
        pollVerdict deletionConf (c.getClusterInfo (c.calls.length + i) id) = none :=
      fun i hi => (deletion_verdict_pending _).mpr (hpend i hi)
    have key : ∀ r,
        pollVerdict deletionConf (c.getClusterInfo (c.calls.length + n) id) = some r →
        waitForSESClusterDeletion id c =
          (r.map (Error.waitDeletion id), c.polled id (n + 1)) := by
      intro r hr
      rw [waitForSESClusterDeletion_eq,
        loop_first_verdict deletionConf id r n c.pollsBeforeTimeout 0 "" c hfuel hp hr]
    have hother : ∀ s, reportedStatus (c.getClusterInfo (c.calls.length + n) id) = some s →
        s ≠ "running" → s ≠ "deleting" → s ≠ "return" →
        waitForSESClusterDeletion id c =
          (some (Error.waitDeletion id (WaitError.unexpectedState s)),
            c.polled id (n + 1)) := by
      intro s hs h1 h2 h3
      apply key (some (WaitError.unexpectedState s))
      rw [pollVerdict_of_status _ _ _ hs]
      simp [deletionConf, SESStatusRunningCode, SESStatusDeletingCode, SESStatusReturnCode,
        h1, h2, h3]
    refine ⟨?_, ?_, ?_, hother⟩
    · intro h
      exact key none ((deletion_verdict_done _).mpr h)
    · intro e he
      apply key (some (WaitError.refresh e))
      rw [he]; rfl
    · intro h
      apply hother "null" (by rw [h]; rfl) (by decide) (by decide) (by decide)

/-- C2, witness: the cluster is gone at the second lookup, and the wait fails. -/
theorem waitForSESClusterDeletion_outcome_witness :
    waitForSESClusterDeletion "7"
        (scriptedCloud [Except.ok (some (sampleCluster "deleting")), Except.ok none] 5) =
      (some (Error.waitDeletion "7" (WaitError.unexpectedState "null")),
        (scriptedCloud [Except.ok (some (sampleCluster "deleting")),
          Except.ok none] 5).polled "7" 2) :=
  ((waitForSESClusterDeletion_outcome "7" _).2 1 (by decide) (by decide)).2.2.1 rfl

/-! ## C3: the password reset of an update -/

theorem Cloud.polled_calls (c : Cloud) (uuid : String) (n : Nat) :
    (c.polled uuid n).calls = c.calls ++ List.replicate n (ApiCall.GetClusterInfo uuid) := rfl

theorem Cloud.record_calls (c : Cloud) (call : ApiCall) :
    (c.record call).calls = c.calls ++ [call] := rfl

/-- A wait changes the cloud by lookups only. -/
theorem loop_cloud (conf : StateChangeConf) (uuid : String) :
    ∀ (fuel notfoundTick : Nat) (lastState : String) (c : Cloud),
      ∃ k, (WaitForStateContext.loop conf (waitForSESClusterActive.Refresh uuid)
        fuel notfoundTick lastState c).2 = c.polled uuid k := by
  intro fuel
  induction fuel with
  | zero =>
    intro nf last c
    exact ⟨0, by rw [WaitForStateContext.loop, Cloud.polled_zero]⟩
  | succ f ih =>
    intro nf last c
    have hrec : ∀ nf1 s, ∃ k, (WaitForStateContext.loop conf
        (waitForSESClusterActive.Refresh uuid) f nf1 s
        (c.record (ApiCall.GetClusterInfo uuid))).2 = c.polled uuid k := by
      intro nf1 s
      obtain ⟨k, hk⟩ := ih nf1 s (c.record (ApiCall.GetClusterInfo uuid))
      exact ⟨k + 1, by rw [hk, Cloud.record_polled]⟩
    have hone : c.record (ApiCall.GetClusterInfo uuid) = c.polled uuid 1 := by
      rw [← Cloud.record_polled, Cloud.polled_zero]
    rw [WaitForStateContext.loop, activeRefresh_eq]
    cases hresp : c.getClusterInfo c.calls.length uuid with
    | error e => exact ⟨1, by simp [hone]⟩
    | ok x =>
      simp only [Bool.false_eq_true, if_false]
      split_ifs
      · exact ⟨1, by simp [hone]⟩
      · exact hrec _ _
      · exact ⟨1, by simp [hone]⟩
      · exact hrec _ _

theorem waitForSESClusterActive_cloud (uuid : String) (c : Cloud) :
    ∃ k, (waitForSESClusterActive uuid c).2 = c.polled uuid k := by
  rw [waitForSESClusterActive_eq]
  exact loop_cloud activeConf uuid _ _ _ c

theorem waitForSESClusterDeletion_cloud (id : String) (c : Cloud) :
    ∃ k, (waitForSESClusterDeletion id c).2 = c.polled id k := by
  rw [waitForSESClusterDeletion_eq]
  exact loop_cloud deletionConf id _ _ _ c

/-- C3, as stated, fails: the password has changed, the lookup of the wait
before the reset fails, and no reset call is made. -/
theorem checkSearchEngineChanged_reset_not_iff_changed :
    ¬ (((newCalls (scriptedCloud [Except.error "unavailable"] 5)
          (checkSearchEngineChanged (sampleUpdate "old" "new" "3" "3")
            (scriptedCloud [Except.error "unavailable"] 5)).2).any
          ApiCall.isResetSearchEngineUserPassword = true) ↔
        ((sampleUpdate "old" "new" "3" "3").HasChanges_search_engine = true ∧
          passwordDiffers (sampleUpdate "old" "new" "3" "3") = true)) := by
  decide

theorem newCalls_polled (c : Cloud) (uuid : String) (k : Nat) :
    newCalls c (c.polled uuid k) = List.replicate k (ApiCall.GetClusterInfo uuid) := by
  simp [newCalls, Cloud.polled_calls]

theorem newCalls_polled_record_polled (c : Cloud) (uuid : String) (k j : Nat) (call : ApiCall) :
    newCalls c (((c.polled uuid k).record call).polled uuid j) =
      List.replicate k (ApiCall.GetClusterInfo uuid) ++ call ::
        List.replicate j (ApiCall.GetClusterInfo uuid) := by
  simp [newCalls, Cloud.polled_calls, Cloud.record_calls, List.append_assoc]

theorem newCalls_self (c : Cloud) : newCalls c c = [] := by
  simp [newCalls]

/-- C3 (amended): `checkSearchEngineChanged` invokes
`ResetSearchEngineUserPassword` exactly when `search_engine` has changed,
the `user_password` of the old first block differs from that of the new
first block, and the wait for the active cluster before the call returns
nil; every such call is for the resource ID and carries the new password;
and when the passwords do not differ (only port or user_name changed), the
cloud is left as it was (no API call, no lookup of a wait), with nil
returned when both first blocks exist. -/
theorem checkSearchEngineChanged_reset (d : ResourceData) (c : Cloud) :
    (((newCalls c (checkSearchEngineChanged d c).2).any
        ApiCall.isResetSearchEngineUserPassword = true) ↔
      (d.HasChanges_search_engine = true ∧ passwordDiffers d = true ∧
        (waitForSESClusterActive d.id c).1 = none)) ∧
    (∀ call, call ∈ newCalls c (checkSearchEngineChanged d c).2 →
      call.isResetSearchEngineUserPassword = true →
      ∃ newSearchEngineMap, d.GetChange_search_engine.2.head? = some newSearchEngineMap ∧
        call = ApiCall.ResetSearchEngineUserPassword d.id
          { SearchEngineUserPassword := some newSearchEngineMap.user_password }) ∧
    (passwordDiffers d = false → (checkSearchEngineChanged d c).2 = c) ∧
    (∀ o n, d.GetChange_search_engine.1.head? = some o →
      d.GetChange_search_engine.2.head? = some n → o.user_password = n.user_password →
      checkSearchEngineChanged d c = (Return.nil, c)) := by
  unfold checkSearchEngineChanged passwordDiffers
  cases hch : d.HasChanges_search_engine with
  | false =>
    simp [newCalls_self]
  | true =>
    simp only [if_true]
    cases ho : d.GetChange_search_engine.1.head? with
    | none => simp [newCalls_self]
    | some o =>
      cases hn : d.GetChange_search_engine.2.head? with
      | none => simp [newCalls_self]
      | some n =>
        by_cases hpw : o.user_password = n.user_password
        · simp [hpw, newCalls_self]
        · have hpw1 : (o.user_password != n.user_password) = true := by simpa using hpw
          simp only [hpw1, if_true]
          obtain ⟨k, hk⟩ := waitForSESClusterActive_cloud d.id c
          rcases hw : waitForSESClusterActive d.id c with ⟨r, c1⟩
          rw [hw] at hk
          simp only at hk
          subst hk
          cases r with
          | some err =>
            simp [newCalls_polled, ApiCall.isResetSearchEngineUserPassword, hpw]
          | none =>
            simp only [StringPtrOrNil, if_true]
            obtain ⟨j, hj⟩ := waitForSESClusterActive_cloud d.id
              ((c.polled d.id k).record (ApiCall.ResetSearchEngineUserPassword d.id
                { SearchEngineUserPassword := some n.user_password }))
            rcases hw2 : waitForSESClusterActive d.id
              ((c.polled d.id k).record (ApiCall.ResetSearchEngineUserPassword d.id
                { SearchEngineUserPassword := some n.user_password })) with ⟨r2, c3⟩
            rw [hw2] at hj
            simp only at hj
            subst hj
            have hrec : (c.polled d.id k).record (ApiCall.ResetSearchEngineUserPassword d.id
                { SearchEngineUserPassword := some n.user_password }) =
                ((c.polled d.id k).record (ApiCall.ResetSearchEngineUserPassword d.id
                { SearchEngineUserPassword := some n.user_password })).polled d.id 0 := by
              rw [Cloud.polled_zero]
            cases hreset : (c.polled d.id k).resetSearchEngineUserPassword
                (c.polled d.id k).calls.length d.id
                { SearchEngineUserPassword := some n.user_password } with
            | some err =>
              simp only
              rw [hrec]
              simp [newCalls_polled_record_polled, ApiCall.isResetSearchEngineUserPassword,
                hpw]
              rintro call (⟨_, rfl⟩ | rfl) <;> simp
            | none =>
              cases r2 <;>
              simp [newCalls_polled_record_polled, ApiCall.isResetSearchEngineUserPassword,
                hpw] <;>
              rintro call (⟨_, rfl⟩ | rfl | ⟨_, rfl⟩) <;> simp

/-! ## C4: the added data nodes of an update -/

theorem toInt32_of_range (a : Int) (h1 : -(2 ^ 31) ≤ a) (h2 : a < 2 ^ 31) : toInt32 a = a := by
  unfold toInt32
  norm_num at h1 h2 ⊢
  omega

/-- C4, as stated, fails: the count grows from 3 to 5, the lookup of the
wait before the call fails, and `AddNodesInCluster` is not invoked. -/
theorem checkDataNodeChanged_add_not_iff_increased :
    Atoi "3" = some 3 ∧ Atoi "5" = some 5 ∧
    ¬ (((newCalls (scriptedCloud [Except.error "unavailable"] 5)
          (checkDataNodeChanged (sampleUpdate "pw" "pw" "3" "5")
            (scriptedCloud [Except.error "unavailable"] 5)).2).any
          ApiCall.isAddNodesInCluster = true) ↔
        ((sampleUpdate "pw" "pw" "3" "5").HasChanges_data_node = true ∧
          "3" ≠ "5" ∧ (3 : Int) < 5)) := by
  decide

/-- C4 (amended): for old and new first `data_node` blocks whose counts are
decimal strings of int32 values, `checkDataNodeChanged` invokes
`AddNodesInCluster` exactly when `data_node` has changed, the two count
strings differ, old < new as integers, and the wait for the active cluster
before the call returns nil; when the count is unchanged or decreases, the
cloud is left as it was (no API call, no lookup of a wait) and nil is
returned. -/
theorem checkDataNodeChanged_add (d : ResourceData) (c : Cloud) (o n : DataNodeMap)
    (a b : Int) (ho : d.GetChange_data_node.1.head? = some o)
    (hn : d.GetChange_data_node.2.head? = some n)
    (ha : Atoi o.count = some a) (hb : Atoi n.count = some b)
    (ha1 : -(2 ^ 31) ≤ a) (ha2 : a < 2 ^ 31) (hb1 : -(2 ^ 31) ≤ b) (hb2 : b < 2 ^ 31) :
    (((newCalls c (checkDataNodeChanged d c).2).any ApiCall.isAddNodesInCluster = true) ↔
      (d.HasChanges_data_node = true ∧ o.count ≠ n.count ∧ a < b ∧
        (waitForSESClusterActive d.id c).1 = none)) ∧
    (¬ a < b → checkDataNodeChanged d c = (Return.nil, c)) := by
  have hoc : getInt32FromString o.count true = some a := by
    simp [getInt32FromString, ha, toInt32_of_range a ha1 ha2]
  have hnc : getInt32FromString n.count true = some b := by
    simp [getInt32FromString, hb, toInt32_of_range b hb1 hb2]
  unfold checkDataNodeChanged
  cases hch : d.HasChanges_data_node with
  | false => simp [newCalls_self]
  | true =>
    simp only [if_true, ho, hn, hoc, hnc]
    by_cases hcnt : o.count = n.count
    · simp [hcnt, newCalls_self]
    · have hcnt1 : (o.count != n.count) = true := by simpa using hcnt
      simp only [hcnt1, if_true]
      by_cases hlt : a < b
      · simp only [hlt, if_true]
        obtain ⟨k, hk⟩ := waitForSESClusterActive_cloud d.id c
        rcases hw : waitForSESClusterActive d.id c with ⟨r, c1⟩
        rw [hw] at hk
        simp only at hk
        subst hk
        cases r with
        | some err => simp [newCalls_polled, ApiCall.isAddNodesInCluster]
        | none =>
          simp only [StringPtrOrNil, if_true]
          obtain ⟨j, hj⟩ := waitForSESClusterActive_cloud d.id
            ((c.polled d.id k).record (ApiCall.AddNodesInCluster d.id
              { NewDataNodeCount := some (Itoa (toInt32 (b - a))) }))
          rcases hw2 : waitForSESClusterActive d.id
            ((c.polled d.id k).record (ApiCall.AddNodesInCluster d.id
              { NewDataNodeCount := some (Itoa (toInt32 (b - a))) })) with ⟨r2, c3⟩
          rw [hw2] at hj
          simp only at hj
          subst hj
          have hrec : (c.polled d.id k).record (ApiCall.AddNodesInCluster d.id
              { NewDataNodeCount := some (Itoa (toInt32 (b - a))) }) =
              ((c.polled d.id k).record (ApiCall.AddNodesInCluster d.id
              { NewDataNodeCount := some (Itoa (toInt32 (b - a))) })).polled d.id 0 := by
            rw [Cloud.polled_zero]
          cases hadd : (c.polled d.id k).addNodesInCluster
              (c.polled d.id k).calls.length d.id
              { NewDataNodeCount := some (Itoa (toInt32 (b - a))) } with
          | some err =>
            simp only
            rw [hrec]
            simp [newCalls_polled_record_polled, ApiCall.isAddNodesInCluster, hcnt, hlt]
          | none =>
            cases r2 <;>
            simp [newCalls_polled_record_polled, ApiCall.isAddNodesInCluster, hcnt, hlt]
      · simp [hlt, newCalls_self]

/-- C4, witness: the count grows from 3 to 5 on a running cluster, and
`AddNodesInCluster` is invoked. -/
theorem checkDataNodeChanged_add_witness :
    (newCalls (scriptedCloud [Except.ok (some (sampleCluster "running"))] 5)
      (checkDataNodeChanged (sampleUpdate "pw" "pw" "3" "5")
        (scriptedCloud [Except.ok (some (sampleCluster "running"))] 5)).2).any
      ApiCall.isAddNodesInCluster = true :=
  (checkDataNodeChanged_add (sampleUpdate "pw" "pw" "3" "5")
    (scriptedCloud [Except.ok (some (sampleCluster "running"))] 5)
    { subnet_no := "21", product_code := "P2", count := "3", storage_size := "100" }
    { subnet_no := "21", product_code := "P2", count := "5", storage_size := "100" }
    3 5 rfl rfl (by decide) (by decide) (by decide) (by decide) (by decide)
    (by decide)).1.mpr (by decide)

/-! ## C5, C6 and C10: Read -/

theorem stringOrZero_eq_StringValue (p : Option String) : stringOrZero p = StringValue p := by
  cases p <;> rfl

/-- C5: after `resourceNcloudSESClusterRead` has returned nil on a lookup
that found a cluster, the resource ID, `uuid` and
`service_group_instance_no` all are the cluster's `ServiceGroupInstanceNo`,
so `uuid` and `service_group_instance_no` name the same cluster. -/
theorem resourceNcloudSESClusterRead_sets_id (config : ProviderConfig) (d : ResourceData)
    (c : Cloud) (cluster : ClusterInfo)
    (hlookup : c.getClusterInfo c.calls.length d.id = Except.ok (some cluster))
    (hret : (resourceNcloudSESClusterRead config d c).ret = Return.nil) :
    (resourceNcloudSESClusterRead config d c).d.id =
        StringValue cluster.ServiceGroupInstanceNo ∧
    (resourceNcloudSESClusterRead config d c).d.attrs.uuid =
        StringValue cluster.ServiceGroupInstanceNo ∧
    (resourceNcloudSESClusterRead config d c).d.attrs.service_group_instance_no =
        StringValue cluster.ServiceGroupInstanceNo ∧
    (resourceNcloudSESClusterRead config d c).d.attrs.uuid =
        (resourceNcloudSESClusterRead config d c).d.attrs.service_group_instance_no := by
  unfold resourceNcloudSESClusterRead at hret ⊢
  cases hvpc : config.SupportVPC with
  | false => simp [hvpc] at hret
  | true =>
    simp only [hvpc, getSESCluster, hlookup, Bool.not_true, Bool.false_eq_true, if_false]
      at hret ⊢
    cases hse : (List.map SearchEngineElem.read (d.SetId
        (StringValue cluster.ServiceGroupInstanceNo)).attrs.search_engine).head? with
    | none => simp [hse] at hret
    | some m =>
      simp only [hse] at hret ⊢
      cases h1 : cluster.SearchEngineVersionCode <;>
      cases h2 : cluster.SearchEngineUserName <;>
      simp only [h1, h2] at hret ⊢ <;>
      try (exact Return.noConfusion hret)
      cases h3 : cluster.IsDualManager <;>
      cases h4 : cluster.ManagerNodeProductCode <;>
      simp only [h3, h4] at hret ⊢ <;>
      try (exact Return.noConfusion hret)
      cases h5 : cluster.DataNodeProductCode <;>
      cases h6 : cluster.DataNodeStorageSize <;>
      simp only [h5, h6] at hret ⊢ <;>
      try (exact Return.noConfusion hret)
      simp [ResourceData.SetId, stringOrZero_eq_StringValue]

/-- C5, witness: a read of a running cluster with one block of each kind. -/
theorem resourceNcloudSESClusterRead_sets_id_witness :
    (resourceNcloudSESClusterRead vpcConfig (sampleUpdate "pw" "pw" "3" "3")
        (scriptedCloud [Except.ok (some (sampleCluster "running"))] 5)).d.id = "7" ∧
    (resourceNcloudSESClusterRead vpcConfig (sampleUpdate "pw" "pw" "3" "3")
        (scriptedCloud [Except.ok (some (sampleCluster "running"))] 5)).d.attrs.uuid = "7" :=
  ⟨(resourceNcloudSESClusterRead_sets_id vpcConfig (sampleUpdate "pw" "pw" "3" "3")
      (scriptedCloud [Except.ok (some (sampleCluster "running"))] 5)
      (sampleCluster "running") rfl (by decide)).1,
   (resourceNcloudSESClusterRead_sets_id vpcConfig (sampleUpdate "pw" "pw" "3" "3")
      (scriptedCloud [Except.ok (some (sampleCluster "running"))] 5)
      (sampleCluster "running") rfl (by decide)).2.1⟩

/-- C6: with VPC support, when the lookup succeeds without a cluster,
`resourceNcloudSESClusterRead` returns nil and leaves the resource data as
it was but for the ID, which is ""; when the lookup fails, it returns that
error and leaves the resource data as it was.  Either way the one lookup is
the only call. -/
theorem resourceNcloudSESClusterRead_not_found (config : ProviderConfig) (d : ResourceData)
    (c : Cloud) (hvpc : config.SupportVPC = true) :
    (c.getClusterInfo c.calls.length d.id = Except.ok none →
      (resourceNcloudSESClusterRead config d c).ret = Return.nil ∧
      (resourceNcloudSESClusterRead config d c).d =
        { id := "", state := d.state, attrs := d.attrs } ∧
      (resourceNcloudSESClusterRead config d c).cloud =
        c.record (ApiCall.GetClusterInfo d.id)) ∧
    (∀ e, c.getClusterInfo c.calls.length d.id = Except.error e →
      (resourceNcloudSESClusterRead config d c).ret = Return.err (Error.api e) ∧
      (resourceNcloudSESClusterRead config d c).d = d ∧
      (resourceNcloudSESClusterRead config d c).cloud =
        c.record (ApiCall.GetClusterInfo d.id)) := by
  constructor
  · intro h
    simp [resourceNcloudSESClusterRead, hvpc, getSESCluster, h, ResourceData.SetId]
  · intro e h
    simp [resourceNcloudSESClusterRead, hvpc, getSESCluster, h]

/-- C6, witness: the cluster of the resource is gone. -/
theorem resourceNcloudSESClusterRead_not_found_witness :
    (resourceNcloudSESClusterRead vpcConfig (sampleUpdate "pw" "pw" "3" "3")
        (scriptedCloud [Except.ok none] 5)).d =
      { id := "", state := sampleAttrs "pw" "3", attrs := sampleAttrs "pw" "3" } :=
  ((resourceNcloudSESClusterRead_not_found vpcConfig (sampleUpdate "pw" "pw" "3" "3")
      (scriptedCloud [Except.ok none] 5) rfl).1 rfl).2.1

/-- C10 fails on the code: on the resource data the passthrough importer
hands over (the ID, no `search_engine` block) and a lookup that returns a
cluster with every field present, `resourceNcloudSESClusterRead` panics at
line 263 with an index out of range. -/
theorem resourceNcloudSESClusterRead_panics_after_import :
    (resourceNcloudSESClusterRead vpcConfig (importedData "7")
        (scriptedCloud [Except.ok (some (sampleCluster "running"))] 5)).ret =
      Return.panic "index out of range [0] with length 0" := by
  decide

/-! ## C9: no classic support -/

/-- C9: when `config.SupportVPC` is false, Create, Read, Update and Delete of
`ncloud_ses_cluster` and the read of `ncloud_ses_versions` return the
`NotSupportClassic` error, and leave the resource data and the cloud (with
its log of calls) as they were. -/
theorem notSupportClassic_without_call (config : ProviderConfig) (d : ResourceData)
    (c : Cloud) (ApplyFilters : List FilterSpec → List VersionMap → List VersionMap)
    (now : Time) (v : VersionsData) (h : config.SupportVPC = false) :
    resourceNcloudSESClusterCreate config d c =
      { ret := Return.err (NotSupportClassic "resource `ncloud_ses_cluster`"),
        d := d, cloud := c } ∧
    resourceNcloudSESClusterRead config d c =
      { ret := Return.err (NotSupportClassic "resource `ncloud_ses_cluster`"),
        d := d, cloud := c } ∧
    resourceNcloudSESClusterUpdate config d c =
      { ret := Return.err (NotSupportClassic "resource `ncloud_ses_cluster`"),
        d := d, cloud := c } ∧
    resourceNcloudSESClusterDelete config d c =
      { ret := Return.err (NotSupportClassic "resource `ncloud_ses_cluster`"),
        d := d, cloud := c } ∧
    dataSourceNcloudSESVersionsRead ApplyFilters now config v c =
      (some (NotSupportClassic "datasource `ncloud_ses_versions`"), v, c) := by
  refine ⟨?_, ?_, ?_, ?_, ?_⟩
  · simp [resourceNcloudSESClusterCreate, h, sesClusterName]
  · simp [resourceNcloudSESClusterRead, h, sesClusterName]
  · simp [resourceNcloudSESClusterUpdate, h, sesClusterName]
  · simp [resourceNcloudSESClusterDelete, h, sesClusterName]
  · simp [dataSourceNcloudSESVersionsRead, h, sesVersionsName]

/-- C9, witness: an update on the classic platform. -/
theorem notSupportClassic_without_call_witness :
    (resourceNcloudSESClusterUpdate classicConfig (sampleUpdate "old" "new" "3" "5")
        (scriptedCloud [] 5)).ret =
      Return.err (NotSupportClassic "resource `ncloud_ses_cluster`") :=
  congrArg Outcome.ret
    (notSupportClassic_without_call classicConfig (sampleUpdate "old" "new" "3" "5")
      (scriptedCloud [] 5) (fun _ r => r)
      { year := 2022, month := 5, day := 17, hour := 9, minute := 30, second := 0,
        nanosecond := 0 }
      { id := "", filter := [], versions := [] } rfl).2.2.1

/-! ## C7: the versions data source -/

theorem foldl_append_singleton {α β : Type} (f : α → β) (l : List α) (acc : List β) :
    l.foldl (fun resources r => resources ++ [f r]) acc = acc ++ l.map f := by
  induction l generalizing acc with
  | nil => simp
  | cons x xs ih => simp [ih]

theorem Time.String_ne_empty (t : Time) : t.String ≠ "" := by
  intro h
  have hlen := congrArg String.length h
  unfold Time.String at hlen
  rw [String.length_append] at hlen
  have h10 : " +0000 UTC".length = 10 := by decide
  have h0 : "".length = 0 := by decide
  rw [h10, h0] at hlen
  omega

/-- C7: on a read with `SupportVPC` true, no filter and a successful API
call, `dataSourceNcloudSESVersionsRead` returns nil, sets a non-empty ID and
sets `versions` to one entry per element of the `ElasticSearchVersionList`
of the API, in its order, with `value` the version code and `label` the
version name. -/
theorem dataSourceNcloudSESVersionsRead_versions
    (ApplyFilters : List FilterSpec → List VersionMap → List VersionMap) (now : Time)
    (config : ProviderConfig) (d : VersionsData) (c : Cloud)
    (elasticSearchVersionList : List ElasticSearchVersion)
    (hvpc : config.SupportVPC = true) (hfilter : d.filter = [])
    (hresp : c.getElasticsearchVersionList c.calls.length =
      Except.ok elasticSearchVersionList) :
    (dataSourceNcloudSESVersionsRead ApplyFilters now config d c).1 = none ∧
    (dataSourceNcloudSESVersionsRead ApplyFilters now config d c).2.1.id ≠ "" ∧
    (dataSourceNcloudSESVersionsRead ApplyFilters now config d c).2.1.versions =
      elasticSearchVersionList.map
        (fun r => { value := r.ElasticSearchVersionCode,
                    label := r.ElasticSearchVersionName }) ∧
    (dataSourceNcloudSESVersionsRead ApplyFilters now config d c).2.1.versions.length =
      elasticSearchVersionList.length ∧
    (∀ i (h : i < elasticSearchVersionList.length),
      ((dataSourceNcloudSESVersionsRead ApplyFilters now config d c).2.1.versions.get? i).map
          (fun m => (m.value, m.label)) =
        some ((elasticSearchVersionList.get ⟨i, h⟩).ElasticSearchVersionCode,
          (elasticSearchVersionList.get ⟨i, h⟩).ElasticSearchVersionName)) := by
  have hread : dataSourceNcloudSESVersionsRead ApplyFilters now config d c =
      (none,
        { id := now.String, filter := d.filter,
          versions := (elasticSearchVersionList.map
            (fun r => { value := r.ElasticSearchVersionCode,
                        label := r.ElasticSearchVersionName })) },
        c.record (ApiCall.GetElasticsearchVersionList 1)) := by
    simp [dataSourceNcloudSESVersionsRead, hvpc, hfilter, getSESVersion, hresp,
      foldl_append_singleton, StringValue]
  rw [hread]
  refine ⟨rfl, Time.String_ne_empty now, rfl, by simp, ?_⟩
  intro i h
  simp [List.getElem?_eq_getElem h]

/-- C7, witness: two versions. -/
theorem dataSourceNcloudSESVersionsRead_versions_witness :
    (dataSourceNcloudSESVersionsRead (fun _ r => r)
        { year := 2022, month := 5, day := 17, hour := 9, minute := 30, second := 0,
          nanosecond := 0 }
        vpcConfig { id := "", filter := [], versions := [] }
        { scriptedCloud [] 5 with
          getElasticsearchVersionList := fun _ =>
            Except.ok [{ ElasticSearchVersionCode := "133", ElasticSearchVersionName := "7.7.0" },
              { ElasticSearchVersionCode := "144",
                ElasticSearchVersionName := "7.10.2" }] }).2.1.versions =
      [{ value := "133", label := "7.7.0" }, { value := "144", label := "7.10.2" }] :=
  (dataSourceNcloudSESVersionsRead_versions (fun _ r => r)
    { year := 2022, month := 5, day := 17, hour := 9, minute := 30, second := 0,
      nanosecond := 0 }
    vpcConfig { id := "", filter := [], versions := [] }
    { scriptedCloud [] 5 with
      getElasticsearchVersionList := fun _ =>
        Except.ok [{ ElasticSearchVersionCode := "133", ElasticSearchVersionName := "7.7.0" },
          { ElasticSearchVersionCode := "144", ElasticSearchVersionName := "7.10.2" }] }
    _ rfl rfl rfl).2.2.1

/-! ## C8: the deprecated `exclusion_product_code` -/

/-- C8 fails on the code: two configurations that differ only in
`exclusion_product_code` send different `GetServerProductList` requests, in
the classic and in the VPC path: the attribute, deprecated at lines 87-91 as
no longer supported, is still copied into the request at lines 142 and 185. -/
theorem exclusion_product_code_reaches_request :
    { sampleProductData "SPSVRSSD00000003" with exclusion_product_code := "" } =
      sampleProductData "" ∧
    (getClassicServerProductList (fun _ _ => Except.ok (some "2")) classicConfig
        (sampleProductData "SPSVRSSD00000003") (scriptedCloud [] 5)).2.calls =
      [ApiCall.ClassicGetServerProductList
        { ExclusionProductCode := some "SPSVRSSD00000003",
          ServerImageProductCode := some "SW.VSVR.OS.LNX64.CNTOS.0703.B050",
          ProductCode := none, RegionNo := some "1", ZoneNo := some "2" }] ∧
    (getClassicServerProductList (fun _ _ => Except.ok (some "2")) classicConfig
        (sampleProductData "") (scriptedCloud [] 5)).2.calls =
      [ApiCall.ClassicGetServerProductList
        { ExclusionProductCode := none,
          ServerImageProductCode := some "SW.VSVR.OS.LNX64.CNTOS.0703.B050",
          ProductCode := none, RegionNo := some "1", ZoneNo := some "2" }] ∧
    (getVpcServerProductList vpcConfig (sampleProductData "SPSVRSSD00000003")
        (scriptedCloud [] 5)).2.calls =
      [ApiCall.VpcGetServerProductList
        { ExclusionProductCode := some "SPSVRSSD00000003",
          ServerImageProductCode := some "SW.VSVR.OS.LNX64.CNTOS.0703.B050",
          ProductCode := none, RegionCode := some "KR", ZoneCode := some "KR-1" }] ∧
    (getVpcServerProductList vpcConfig (sampleProductData "") (scriptedCloud [] 5)).2.calls =
      [ApiCall.VpcGetServerProductList
        { ExclusionProductCode := none,
          ServerImageProductCode := some "SW.VSVR.OS.LNX64.CNTOS.0703.B050",
          ProductCode := none, RegionCode := some "KR", ZoneCode := some "KR-1" }] ∧
    (getClassicServerProductList (fun _ _ => Except.ok (some "2")) classicConfig
        (sampleProductData "SPSVRSSD00000003") (scriptedCloud [] 5)).2.calls ≠
      (getClassicServerProductList (fun _ _ => Except.ok (some "2")) classicConfig
        (sampleProductData "") (scriptedCloud [] 5)).2.calls ∧
    (getVpcServerProductList vpcConfig (sampleProductData "SPSVRSSD00000003")
        (scriptedCloud [] 5)).2.calls ≠
      (getVpcServerProductList vpcConfig (sampleProductData "") (scriptedCloud [] 5)).2.calls := by
  decide

/-! ## C11: the server product data source -/

theorem getVpcServerProductList_panic (config : ProviderConfig) (d : ServerProductData)
    (c : Cloud) (msg : String)
    (h : (getVpcServerProductList config d c).1 = Result.panic msg) : msg = nilDereference := by
  unfold getVpcServerProductList at h
  simp only at h
  split at h
  · exact Result.noConfusion h
  · split at h
    · exact Result.noConfusion h
    · exact (Result.panic.inj h).symm

theorem getClassicServerProductList_panic
    (parseZoneNoParameter : ProviderConfig → ServerProductData → Except Error (Option String))
    (config : ProviderConfig) (d : ServerProductData) (c : Cloud) (msg : String)
    (h : (getClassicServerProductList parseZoneNoParameter config d c).1 = Result.panic msg) :
    msg = nilDereference := by
  unfold getClassicServerProductList at h
  split at h
  · exact Result.noConfusion h
  · simp only at h
    split at h
    · exact Result.noConfusion h
    · split at h
      · exact Result.noConfusion h
      · exact (Result.panic.inj h).symm

/-- The product list functions panic on a nil dereference only. -/
theorem getServerProductListFiltered_panic
    (ApplyFilters : List FilterSpec → List ProductMap → List ProductMap)
    (parseZoneNoParameter : ProviderConfig → ServerProductData → Except Error (Option String))
    (config : ProviderConfig) (d : ServerProductData) (c : Cloud) (msg : String)
    (h : (getServerProductListFiltered ApplyFilters parseZoneNoParameter config d c).1 =
      Result.panic msg) : msg = nilDereference := by
  unfold getServerProductListFiltered at h
  have hinner : ∀ m, (if config.SupportVPC == true then getVpcServerProductList config d c
      else getClassicServerProductList parseZoneNoParameter config d c).1 = Result.panic m →
      m = nilDereference := by
    intro m hm
    split_ifs at hm
    · exact getVpcServerProductList_panic config d c m hm
    · exact getClassicServerProductList_panic parseZoneNoParameter config d c m hm
  rcases hres : (if config.SupportVPC == true then getVpcServerProductList config d c
      else getClassicServerProductList parseZoneNoParameter config d c) with ⟨r, c1⟩
  rw [hres] at h hinner
  cases r with
  | ok resources =>
    simp only at h
    split_ifs at h
  | err e => exact Result.noConfusion h
  | panic m =>
    simp only at h
    rw [← Result.panic.inj h]
    exact hinner m rfl

/-- C11: `dataSourceNcloudServerProductRead` returns nil exactly when the
product lookup succeeds and the filtered list has exactly one element, and
the resource data is then populated from that element; with zero or more
than one element it returns the error of `validateOneResult` and leaves the
resource data as it was; the index into `resources` is never out of range. -/
theorem dataSourceNcloudServerProductRead_one_result
    (ApplyFilters : List FilterSpec → List ProductMap → List ProductMap)
    (parseZoneNoParameter : ProviderConfig → ServerProductData → Except Error (Option String))
    (config : ProviderConfig) (d : ServerProductData) (c : Cloud) :
    ((dataSourceNcloudServerProductRead ApplyFilters parseZoneNoParameter config d c).ret =
        Return.nil ↔
      ∃ resource,
        (getServerProductListFiltered ApplyFilters parseZoneNoParameter config d c).1 =
          Result.ok [resource]) ∧
    (∀ resource,
      (getServerProductListFiltered ApplyFilters parseZoneNoParameter config d c).1 =
          Result.ok [resource] →
      (dataSourceNcloudServerProductRead ApplyFilters parseZoneNoParameter config d c).d =
        SetSingularResourceDataFromMap d resource) ∧
    (∀ resources,
      (getServerProductListFiltered ApplyFilters parseZoneNoParameter config d c).1 =
          Result.ok resources →
      resources.length ≠ 1 →
      (dataSourceNcloudServerProductRead ApplyFilters parseZoneNoParameter config d c).ret =
          Return.err (Error.validateOneResult resources.length) ∧
      (dataSourceNcloudServerProductRead ApplyFilters parseZoneNoParameter config d c).d = d) ∧
    (dataSourceNcloudServerProductRead ApplyFilters parseZoneNoParameter config d c).ret ≠
      Return.panic indexOutOfRange := by
  have hpanic := getServerProductListFiltered_panic ApplyFilters parseZoneNoParameter config d c
  unfold dataSourceNcloudServerProductRead
  rcases hres : getServerProductListFiltered ApplyFilters parseZoneNoParameter config d c
    with ⟨r, c1⟩
  rw [hres] at hpanic
  cases r with
  | err e => simp
  | panic msg =>
    have hmsg : msg = nilDereference := hpanic msg rfl
    subst hmsg
    have hne : nilDereference ≠ indexOutOfRange := by decide
    refine ⟨by simp, fun _ h => Result.noConfusion h, fun _ h => Result.noConfusion h, ?_⟩
    simp only [ne_eq, Return.panic.injEq]
    exact hne
  | ok resources =>
    match resources with
    | [] => simp [validateOneResult]
    | [m] => simp [validateOneResult]
    | m :: m2 :: rest => simp [validateOneResult]

/-- C11, witness: the lookup finds one product, and the read returns nil. -/
theorem dataSourceNcloudServerProductRead_one_result_witness :
    (dataSourceNcloudServerProductRead (fun _ r => r) (fun _ _ => Except.ok none) vpcConfig
        (sampleProductData "") (productCloud [sampleProduct "SPSVRSSD00000003"])).ret =
      Return.nil :=
  (dataSourceNcloudServerProductRead_one_result (fun _ r => r) (fun _ _ => Except.ok none)
    vpcConfig (sampleProductData "") (productCloud [sampleProduct "SPSVRSSD00000003"])).1.mpr
    ⟨_, rfl⟩

/-! ## C12: the diagnostics of an update -/

/-- C12, as stated, fails: with `SupportVPC` true the update does not return
empty diagnostics on every input, it panics.  On a prior state without a
`search_engine` block line 331 indexes an empty list; on a new `data_node`
count that is no decimal number line 363 dereferences the nil that
`getInt32FromString` returns. -/
theorem resourceNcloudSESClusterUpdate_panics :
    vpcConfig.SupportVPC = true ∧
    (resourceNcloudSESClusterUpdate vpcConfig updateWithoutOldSearchEngine
        (scriptedCloud (runningScript 5) 5)).ret =
      Return.panic "index out of range [0] with length 0" ∧
    (resourceNcloudSESClusterUpdate vpcConfig (sampleUpdate "pw" "pw" "3" "five")
        (scriptedCloud (runningScript 5) 5)).ret =
      Return.panic "invalid memory address or nil pointer dereference" := by
  decide

/-- C12 (amended): with `SupportVPC` true and neither check panicking,
`resourceNcloudSESClusterUpdate` returns nil and leaves the resource data as
it was: whatever `checkSearchEngineChanged` and `checkDataNodeChanged`
return is dropped, and `checkDataNodeChanged` runs on the cloud that
`checkSearchEngineChanged` leaves, also when that check has failed. -/
theorem resourceNcloudSESClusterUpdate_discards (config : ProviderConfig) (d : ResourceData)
    (c : Cloud) (hvpc : config.SupportVPC = true)
    (h1 : (checkSearchEngineChanged d c).1.isPanic = false)
    (h2 : (checkDataNodeChanged d (checkSearchEngineChanged d c).2).1.isPanic = false) :
    resourceNcloudSESClusterUpdate config d c =
      { ret := Return.nil, d := d,
        cloud := (checkDataNodeChanged d (checkSearchEngineChanged d c).2).2 } := by
  unfold resourceNcloudSESClusterUpdate
  simp only [hvpc, Bool.not_true, Bool.false_eq_true, if_false]
  rcases hr1 : checkSearchEngineChanged d c with ⟨r1, c1⟩
  rw [hr1] at h1 h2
  simp only at h1 h2 ⊢
  rcases hr2 : checkDataNodeChanged d c1 with ⟨r2, c2⟩
  rw [hr2] at h2
  simp only at h2 ⊢
  cases r1 with
  | panic msg => simp [Return.isPanic] at h1
  | nil =>
    cases r2 with
    | panic msg => simp [Return.isPanic] at h2
    | nil => simp only [hr2]
    | err e => simp only [hr2]
  | err e1 =>
    cases r2 with
    | panic msg => simp [Return.isPanic] at h2
    | nil => simp only [hr2]
    | err e => simp only [hr2]

/-- C12, witness: the password reset is refused, the update still adds the
data nodes and returns nil. -/
theorem resourceNcloudSESClusterUpdate_discards_witness :
    (checkSearchEngineChanged (sampleUpdate "old" "new" "3" "5")
        (resetRefusingCloud (runningScript 5) 5)).1 = Return.err (Error.api "denied") ∧
    (resourceNcloudSESClusterUpdate vpcConfig (sampleUpdate "old" "new" "3" "5")
        (resetRefusingCloud (runningScript 5) 5)).ret = Return.nil ∧
    (resourceNcloudSESClusterUpdate vpcConfig (sampleUpdate "old" "new" "3" "5")
        (resetRefusingCloud (runningScript 5) 5)).cloud.calls.any
      ApiCall.isAddNodesInCluster = true :=
  ⟨by decide,
   congrArg Outcome.ret
     (resourceNcloudSESClusterUpdate_discards vpcConfig (sampleUpdate "old" "new" "3" "5")
       (resetRefusingCloud (runningScript 5) 5) rfl (by decide) (by decide)),
   by
     rw [resourceNcloudSESClusterUpdate_discards vpcConfig (sampleUpdate "old" "new" "3" "5")
       (resetRefusingCloud (runningScript 5) 5) rfl (by decide) (by decide)]
     decide⟩

/-! ## C13: Delete -/

theorem countP_isDeleteCluster_replicate (uuid : String) (k : Nat) :
    List.countP ApiCall.isDeleteCluster (List.replicate k (ApiCall.GetClusterInfo uuid)) = 0 := by
  induction k with
  | zero => rfl
  | succ k ih => simp [List.replicate_succ, ApiCall.isDeleteCluster, ih]

/-- C13: `resourceNcloudSESClusterDelete` calls `DeleteCluster` at most
once, and only with VPC support and after `waitForSESClusterActive` has
returned nil, right after the lookups of that wait; it returns nil exactly
when the active wait, the delete call and the deletion wait all succeed;
and the first step that fails gives the error that is returned, with the
cloud as that step leaves it, so that no later step runs. -/
theorem resourceNcloudSESClusterDelete_steps (config : ProviderConfig) (d : ResourceData)
    (c : Cloud) :
    List.countP ApiCall.isDeleteCluster
        (newCalls c (resourceNcloudSESClusterDelete config d c).cloud) ≤ 1 ∧
    ((newCalls c (resourceNcloudSESClusterDelete config d c).cloud).any
        ApiCall.isDeleteCluster = true →
      config.SupportVPC = true ∧ (waitForSESClusterActive d.id c).1 = none ∧
      ∃ k j, (waitForSESClusterActive d.id c).2 = c.polled d.id k ∧
        newCalls c (resourceNcloudSESClusterDelete config d c).cloud =
          List.replicate k (ApiCall.GetClusterInfo d.id) ++ ApiCall.DeleteCluster d.id ::
            List.replicate j (ApiCall.GetClusterInfo d.id)) ∧
    ((resourceNcloudSESClusterDelete config d c).ret = Return.nil ↔
      (config.SupportVPC = true ∧ (waitForSESClusterActive d.id c).1 = none ∧
        (waitForSESClusterActive d.id c).2.deleteCluster
          (waitForSESClusterActive d.id c).2.calls.length d.id = none ∧
        (waitForSESClusterDeletion d.id
          ((waitForSESClusterActive d.id c).2.record (ApiCall.DeleteCluster d.id))).1 = none)) ∧
    (config.SupportVPC = true → ∀ e, (waitForSESClusterActive d.id c).1 = some e →
      resourceNcloudSESClusterDelete config d c =
        { ret := Return.err e, d := d, cloud := (waitForSESClusterActive d.id c).2 }) ∧
    (config.SupportVPC = true → (waitForSESClusterActive d.id c).1 = none →
      ∀ e, (waitForSESClusterActive d.id c).2.deleteCluster
          (waitForSESClusterActive d.id c).2.calls.length d.id = some e →
      resourceNcloudSESClusterDelete config d c =
        { ret := Return.err (Error.api e), d := d,
          cloud := (waitForSESClusterActive d.id c).2.record (ApiCall.DeleteCluster d.id) }) ∧
    (config.SupportVPC = true → (waitForSESClusterActive d.id c).1 = none →
      (waitForSESClusterActive d.id c).2.deleteCluster
          (waitForSESClusterActive d.id c).2.calls.length d.id = none →
      ∀ e, (waitForSESClusterDeletion d.id
          ((waitForSESClusterActive d.id c).2.record (ApiCall.DeleteCluster d.id))).1 = some e →
      resourceNcloudSESClusterDelete config d c =
        { ret := Return.err e, d := d,
          cloud := (waitForSESClusterDeletion d.id
            ((waitForSESClusterActive d.id c).2.record (ApiCall.DeleteCluster d.id))).2 }) := by
  unfold resourceNcloudSESClusterDelete
  cases hvpc : config.SupportVPC with
  | false => simp [newCalls_self]
  | true =>
    simp only [Bool.not_true, Bool.false_eq_true, if_false, true_and, forall_const]
    obtain ⟨k, hk⟩ := waitForSESClusterActive_cloud d.id c
    rcases hw : waitForSESClusterActive d.id c with ⟨r, c1⟩
    rw [hw] at hk
    simp only at hk
    subst hk
    cases r with
    | some err =>
      simp [newCalls_polled, countP_isDeleteCluster_replicate, ApiCall.isDeleteCluster]
    | none =>
      simp only
      obtain ⟨j, hj⟩ := waitForSESClusterDeletion_cloud d.id
        ((c.polled d.id k).record (ApiCall.DeleteCluster d.id))
      rcases hw2 : waitForSESClusterDeletion d.id
        ((c.polled d.id k).record (ApiCall.DeleteCluster d.id)) with ⟨r2, c3⟩
      rw [hw2] at hj
      simp only at hj
      subst hj
      have hrec : (c.polled d.id k).record (ApiCall.DeleteCluster d.id) =
          ((c.polled d.id k).record (ApiCall.DeleteCluster d.id)).polled d.id 0 := by
        rw [Cloud.polled_zero]
      cases hdel : (c.polled d.id k).deleteCluster (c.polled d.id k).calls.length d.id with
      | some err =>
        simp only
        rw [hrec]
        simp only [newCalls_polled_record_polled]
        refine ⟨?_, ?_, ?_, ?_, ?_, ?_⟩
        · simp [List.countP_append, List.countP_cons, countP_isDeleteCluster_replicate,
            ApiCall.isDeleteCluster]
        · intro _
          exact ⟨trivial, k, 0, rfl, rfl⟩
        · simp
        · simp
        · simp [Cloud.polled_zero]
        · simp
      | none =>
        cases r2 <;>
        · simp only [newCalls_polled_record_polled]
          refine ⟨?_, ?_, ?_, ?_, ?_, ?_⟩
          · simp [List.countP_append, List.countP_cons, countP_isDeleteCluster_replicate,
              ApiCall.isDeleteCluster]
          · intro _
            exact ⟨trivial, k, j, rfl, rfl⟩
          · simp
          · simp
          · simp
          · simp

/-- C13, witness: the cluster is running, the delete call succeeds and the
cluster reaches "return": the delete returns nil. -/
theorem resourceNcloudSESClusterDelete_steps_witness :
    (resourceNcloudSESClusterDelete vpcConfig (sampleUpdate "pw" "pw" "3" "3")
        (scriptedCloud [Except.ok (some (sampleCluster "running")), Except.ok none,
          Except.ok (some (sampleCluster "deleting")),
          Except.ok (some (sampleCluster "return"))] 5)).ret = Return.nil :=
  (resourceNcloudSESClusterDelete_steps vpcConfig (sampleUpdate "pw" "pw" "3" "3")
    (scriptedCloud [Except.ok (some (sampleCluster "running")), Except.ok none,
      Except.ok (some (sampleCluster "deleting")),
      Except.ok (some (sampleCluster "return"))] 5)).2.2.1.mpr
    ⟨rfl, by decide, by decide, by decide⟩

/-! ## C14: Create -/

/-- Create, once the four first blocks are read: the create call, the wait,
then `SetId` and Read. -/
theorem resourceNcloudSESClusterCreate_eq (config : ProviderConfig) (d : ResourceData)
    (c : Cloud) (se : SearchEngineMap) (dn : DataNodeMap) (mn : ManagerNodeMap)
    (ms : MasterNodeMap) (hvpc : config.SupportVPC = true)
    (hse : (d.attrs.search_engine.map SearchEngineElem.read).head? = some se)
    (hdn : (d.attrs.data_node.map DataNodeElem.read).head? = some dn)
    (hmn : (d.attrs.manager_node.map ManagerNodeElem.read).head? = some mn)
    (hms : (d.attrs.master_node.map MasterNodeElem.read).head? = some ms) :
    resourceNcloudSESClusterCreate config d c =
      match c.createCluster c.calls.length (createClusterRequest d se dn mn ms) with
      | Except.error err =>
        { ret := Return.err (Error.api err), d := d,
          cloud := c.record (ApiCall.CreateCluster (createClusterRequest d se dn mn ms)) }
      | Except.ok serviceGroupInstanceNo =>
        match waitForSESClusterActive (Itoa (Int32Value serviceGroupInstanceNo))
          (c.record (ApiCall.CreateCluster (createClusterRequest d se dn mn ms))) with
        | (some err, c2) => { ret := Return.err err, d := d, cloud := c2 }
        | (none, c2) =>
          resourceNcloudSESClusterRead config
            (d.SetId (Itoa (Int32Value serviceGroupInstanceNo))) c2 := by
  unfold resourceNcloudSESClusterCreate
  simp only [hvpc, hse, hdn, hmn, hms, Bool.not_true, Bool.false_eq_true, if_false]
  rfl

/-- Create leaves the resource data as it was when a first block is missing. -/
theorem resourceNcloudSESClusterCreate_d_of_missing (config : ProviderConfig)
    (d : ResourceData) (c : Cloud)
    (h : (d.attrs.search_engine.map SearchEngineElem.read).head? = none ∨
      (d.attrs.data_node.map DataNodeElem.read).head? = none ∨
      (d.attrs.manager_node.map ManagerNodeElem.read).head? = none ∨
      (d.attrs.master_node.map MasterNodeElem.read).head? = none) :
    (resourceNcloudSESClusterCreate config d c).d = d := by
  unfold resourceNcloudSESClusterCreate
  split_ifs
  · rfl
  · split
    · rename_i h1 h2 h3 h4
      rcases h with h | h | h | h
      · rw [h] at h1; exact Option.noConfusion h1
      · rw [h] at h2; exact Option.noConfusion h2
      · rw [h] at h3; exact Option.noConfusion h3
      · rw [h] at h4; exact Option.noConfusion h4
    · rfl

/-- C14: once the four first blocks are read, a failed create call is
returned as the error with the resource data (and so the ID) as it was and
the create call as the only call; a failed wait is returned as the error
with the resource data as it was and the cloud as the wait leaves it, so
without the lookup of Read; and when both succeed Create is Read on the
resource data whose ID is set to the decimal string of the
`ServiceGroupInstanceNo` of the create response.  The resource data changes
only if the create call and the wait both succeeded. -/
theorem resourceNcloudSESClusterCreate_sets_id (config : ProviderConfig) (d : ResourceData)
    (c : Cloud) :
    (∀ se dn mn ms, config.SupportVPC = true →
      (d.attrs.search_engine.map SearchEngineElem.read).head? = some se →
      (d.attrs.data_node.map DataNodeElem.read).head? = some dn →
      (d.attrs.manager_node.map ManagerNodeElem.read).head? = some mn →
      (d.attrs.master_node.map MasterNodeElem.read).head? = some ms →
      (∀ e, c.createCluster c.calls.length (createClusterRequest d se dn mn ms) =
          Except.error e →
        resourceNcloudSESClusterCreate config d c =
          { ret := Return.err (Error.api e), d := d,
            cloud := c.record (ApiCall.CreateCluster (createClusterRequest d se dn mn ms)) }) ∧
      (∀ sgin, c.createCluster c.calls.length (createClusterRequest d se dn mn ms) =
          Except.ok sgin →
        (∀ e, (waitForSESClusterActive (Itoa (Int32Value sgin))
            (c.record (ApiCall.CreateCluster (createClusterRequest d se dn mn ms)))).1 =
            some e →
          resourceNcloudSESClusterCreate config d c =
            { ret := Return.err e, d := d,
              cloud := (waitForSESClusterActive (Itoa (Int32Value sgin))
                (c.record (ApiCall.CreateCluster (createClusterRequest d se dn mn ms)))).2 }) ∧
        ((waitForSESClusterActive (Itoa (Int32Value sgin))
            (c.record (ApiCall.CreateCluster (createClusterRequest d se dn mn ms)))).1 =
            none →
          resourceNcloudSESClusterCreate config d c =
            resourceNcloudSESClusterRead config (d.SetId (Itoa (Int32Value sgin)))
              (waitForSESClusterActive (Itoa (Int32Value sgin))
                (c.record (ApiCall.CreateCluster (createClusterRequest d se dn mn ms)))).2))) ∧
    ((resourceNcloudSESClusterCreate config d c).d ≠ d →
      config.SupportVPC = true ∧
      ∃ se dn mn ms sgin,
        (d.attrs.search_engine.map SearchEngineElem.read).head? = some se ∧
        (d.attrs.data_node.map DataNodeElem.read).head? = some dn ∧
        (d.attrs.manager_node.map ManagerNodeElem.read).head? = some mn ∧
        (d.attrs.master_node.map MasterNodeElem.read).head? = some ms ∧
        c.createCluster c.calls.length (createClusterRequest d se dn mn ms) =
          Except.ok sgin ∧
        (waitForSESClusterActive (Itoa (Int32Value sgin))
          (c.record (ApiCall.CreateCluster (createClusterRequest d se dn mn ms)))).1 =
          none) := by
  constructor
  · intro se dn mn ms hvpc hse hdn hmn hms
    rw [resourceNcloudSESClusterCreate_eq config d c se dn mn ms hvpc hse hdn hmn hms]
    constructor
    · intro e he
      rw [he]
    · intro sgin hok
      rw [hok]
      rcases hw : waitForSESClusterActive (Itoa (Int32Value sgin))
        (c.record (ApiCall.CreateCluster (createClusterRequest d se dn mn ms))) with ⟨r, c2⟩
      constructor
      · intro e he
        simp only at he
        subst he
        simp only [hw]
      · intro hnone
        simp only at hnone
        subst hnone
        simp only [hw]
  · intro hne
    cases hvpc : config.SupportVPC with
    | false =>
      exfalso
      apply hne
      simp [resourceNcloudSESClusterCreate, hvpc]
    | true =>
      refine ⟨rfl, ?_⟩
      cases hse : (d.attrs.search_engine.map SearchEngineElem.read).head? with
      | none =>
        exact absurd (resourceNcloudSESClusterCreate_d_of_missing config d c (Or.inl hse)) hne
      | some se =>
        cases hdn : (d.attrs.data_node.map DataNodeElem.read).head? with
        | none =>
          exact absurd (resourceNcloudSESClusterCreate_d_of_missing config d c
            (Or.inr (Or.inl hdn))) hne
        | some dn =>
          cases hmn : (d.attrs.manager_node.map ManagerNodeElem.read).head? with
          | none =>
            exact absurd (resourceNcloudSESClusterCreate_d_of_missing config d c
              (Or.inr (Or.inr (Or.inl hmn)))) hne
          | some mn =>
            cases hms : (d.attrs.master_node.map MasterNodeElem.read).head? with
            | none =>
              exact absurd (resourceNcloudSESClusterCreate_d_of_missing config d c
                (Or.inr (Or.inr (Or.inr hms)))) hne
            | some ms =>
              rw [resourceNcloudSESClusterCreate_eq config d c se dn mn ms hvpc hse hdn hmn
                hms] at hne
              cases hcreate : c.createCluster c.calls.length
                  (createClusterRequest d se dn mn ms) with
              | error e =>
                rw [hcreate] at hne
                exact absurd rfl hne
              | ok sgin =>
                rw [hcreate] at hne
                rcases hw : waitForSESClusterActive (Itoa (Int32Value sgin))
                  (c.record (ApiCall.CreateCluster (createClusterRequest d se dn mn ms)))
                  with ⟨r, c2⟩
                cases r with
                | some e => simp [hw] at hne
                | none => exact ⟨se, dn, mn, ms, sgin, rfl, rfl, rfl, rfl, hcreate, by rw [hw]⟩

/-- C14, witness: the create call answers with number 7, the cluster is
running at the first lookup, and Create is Read on the resource data with
ID "7". -/
theorem resourceNcloudSESClusterCreate_sets_id_witness :
    resourceNcloudSESClusterCreate vpcConfig
        { id := "", state := emptyAttrs, attrs := sampleAttrs "pw" "3" }
        (scriptedCloud (runningScript 5) 5) =
      resourceNcloudSESClusterRead vpcConfig
        (ResourceData.SetId { id := "", state := emptyAttrs, attrs := sampleAttrs "pw" "3" }
          (Itoa (Int32Value (some 7))))
        (waitForSESClusterActive (Itoa (Int32Value (some 7)))
          ((scriptedCloud (runningScript 5) 5).record
            (ApiCall.CreateCluster
              (createClusterRequest
                { id := "", state := emptyAttrs, attrs := sampleAttrs "pw" "3" }
                { version_code := "133", port := "", user_name := "admin",
                  user_password := "pw" }
                { subnet_no := "21", product_code := "P2", count := "3",
                  storage_size := "100" }
                { is_dual_manager := false, subnet_no := "21", product_code := "P1",
                  count := "1" }
                { is_master_only_node_activated := false, subnet_no := "",
                  product_code := "", count := "" })))).2 :=
  (((resourceNcloudSESClusterCreate_sets_id vpcConfig
      { id := "", state := emptyAttrs, attrs := sampleAttrs "pw" "3" }
      (scriptedCloud (runningScript 5) 5)).1
      { version_code := "133", port := "", user_name := "admin", user_password := "pw" }
      { subnet_no := "21", product_code := "P2", count := "3", storage_size := "100" }
      { is_dual_manager := false, subnet_no := "21", product_code := "P1", count := "1" }
      { is_master_only_node_activated := false, subnet_no := "", product_code := "",
        count := "" }
      rfl rfl rfl rfl rfl).2 (some 7) rfl).2 (by decide)

/-! ## C15: the number of added data nodes -/

/-- C15: for old and new first `data_node` blocks whose counts are decimal
strings of non-negative int32 values with old < new, every
`AddNodesInCluster` call of `checkDataNodeChanged` is for the resource ID
and carries as `NewDataNodeCount` the decimal string of new - old; the call
is made when the wait before it returns nil; and new - old is at least 1
and at most new. -/
theorem checkDataNodeChanged_new_count (d : ResourceData) (c : Cloud) (o n : DataNodeMap)
    (a b : Int) (ho : d.GetChange_data_node.1.head? = some o)
    (hn : d.GetChange_data_node.2.head? = some n)
    (ha : Atoi o.count = some a) (hb : Atoi n.count = some b)
    (h0 : 0 ≤ a) (hlt : a < b) (hb2 : b < 2 ^ 31) :
    (∀ call, call ∈ newCalls c (checkDataNodeChanged d c).2 →
      call.isAddNodesInCluster = true →
      call = ApiCall.AddNodesInCluster d.id { NewDataNodeCount := some (Itoa (b - a)) }) ∧
    ((waitForSESClusterActive d.id c).1 = none →
      ApiCall.AddNodesInCluster d.id { NewDataNodeCount := some (Itoa (b - a)) } ∈
        newCalls c (checkDataNodeChanged d c).2) ∧
    1 ≤ b - a ∧ b - a ≤ b := by
  have hb1 : -(2 ^ 31) ≤ b := by norm_num; omega
  have ha1 : -(2 ^ 31) ≤ a := by norm_num; omega
  have ha2 : a < 2 ^ 31 := by omega
  have hoc : getInt32FromString o.count true = some a := by
    simp [getInt32FromString, ha, toInt32_of_range a ha1 ha2]
  have hnc : getInt32FromString n.count true = some b := by
    simp [getInt32FromString, hb, toInt32_of_range b hb1 hb2]
  have hdiff : toInt32 (b - a) = b - a :=
    toInt32_of_range (b - a) (by norm_num; omega) (by omega)
  have hcnt : o.count ≠ n.count := by
    intro h
    rw [h, hb] at ha
    have := Option.some.inj ha
    omega
  have hch : d.HasChanges_data_node = true := by
    unfold ResourceData.HasChanges_data_node
    simp only [bne_iff_ne, ne_eq]
    intro h
    rw [h, hn] at ho
    exact hcnt (by rw [Option.some.inj ho])
  refine ⟨?_, ?_, by omega, by omega⟩
  all_goals
    unfold checkDataNodeChanged
    have hcnt1 : (o.count != n.count) = true := by simpa using hcnt
    simp only [hch, if_true, ho, hn, hoc, hnc, hcnt1, hlt, StringPtrOrNil, hdiff]
    obtain ⟨k, hk⟩ := waitForSESClusterActive_cloud d.id c
    rcases hw : waitForSESClusterActive d.id c with ⟨r, c1⟩
    rw [hw] at hk
    simp only at hk
    subst hk
    cases r with
    | some err => simp [newCalls_polled, ApiCall.isAddNodesInCluster]
    | none =>
      simp only
      obtain ⟨j, hj⟩ := waitForSESClusterActive_cloud d.id
        ((c.polled d.id k).record (ApiCall.AddNodesInCluster d.id
          { NewDataNodeCount := some (Itoa (b - a)) }))
      rcases hw2 : waitForSESClusterActive d.id
        ((c.polled d.id k).record (ApiCall.AddNodesInCluster d.id
          { NewDataNodeCount := some (Itoa (b - a)) })) with ⟨r2, c3⟩
      rw [hw2] at hj
      simp only at hj
      subst hj
      have hrec : (c.polled d.id k).record (ApiCall.AddNodesInCluster d.id
          { NewDataNodeCount := some (Itoa (b - a)) }) =
          ((c.polled d.id k).record (ApiCall.AddNodesInCluster d.id
          { NewDataNodeCount := some (Itoa (b - a)) })).polled d.id 0 := by
        rw [Cloud.polled_zero]
      cases hadd : (c.polled d.id k).addNodesInCluster
          (c.polled d.id k).calls.length d.id
          { NewDataNodeCount := some (Itoa (b - a)) } with
      | some err =>
        simp only
        rw [hrec]
        simp only [newCalls_polled_record_polled]
        first
          | (intro call hcall hadd1
             simp only [List.mem_append, List.mem_cons, List.mem_replicate] at hcall
             rcases hcall with ⟨_, rfl⟩ | rfl | ⟨_, rfl⟩
             · simp [ApiCall.isAddNodesInCluster] at hadd1
             · rfl
             · simp [ApiCall.isAddNodesInCluster] at hadd1)
          | simp
      | none =>
        cases r2 <;>
        · simp only [newCalls_polled_record_polled]
          first
            | (intro call hcall hadd1
               simp only [List.mem_append, List.mem_cons, List.mem_replicate] at hcall
               rcases hcall with ⟨_, rfl⟩ | rfl | ⟨_, rfl⟩
               · simp [ApiCall.isAddNodesInCluster] at hadd1
               · rfl
               · simp [ApiCall.isAddNodesInCluster] at hadd1)
            | simp

/-- C15, witness: the count grows from 3 to 5 on a running cluster, and
`AddNodesInCluster` is called with "2". -/
theorem checkDataNodeChanged_new_count_witness :
    ApiCall.AddNodesInCluster "7" { NewDataNodeCount := some "2" } ∈
      newCalls (scriptedCloud (runningScript 5) 5)
        (checkDataNodeChanged (sampleUpdate "pw" "pw" "3" "5")
          (scriptedCloud (runningScript 5) 5)).2 :=
  (checkDataNodeChanged_new_count (sampleUpdate "pw" "pw" "3" "5")
    (scriptedCloud (runningScript 5) 5)
    { subnet_no := "21", product_code := "P2", count := "3", storage_size := "100" }
    { subnet_no := "21", product_code := "P2", count := "5", storage_size := "100" }
    3 5 rfl rfl (by decide) (by decide) (by decide) (by decide) (by decide)).2.1 (by decide)

/-! ## C16: the `master_node` block written by Read -/

/-- A read that returns nil on a found cluster writes the map of lines
296-308 as the one `master_node` block. -/
theorem read_writes_masterNodeElem (config : ProviderConfig)
    (d : ResourceData) (c : Cloud) (cluster : ClusterInfo)
    (hlookup : c.getClusterInfo c.calls.length d.id = Except.ok (some cluster))
    (hret : (resourceNcloudSESClusterRead config d c).ret = Return.nil) :
    (resourceNcloudSESClusterRead config d c).d.attrs.master_node =
      [masterNodeElem cluster] := by
  unfold resourceNcloudSESClusterRead at hret ⊢
  cases hvpc : config.SupportVPC with
  | false => simp [hvpc] at hret
  | true =>
    simp only [hvpc, getSESCluster, hlookup, Bool.not_true, Bool.false_eq_true, if_false]
      at hret ⊢
    cases hse : (List.map SearchEngineElem.read (d.SetId
        (StringValue cluster.ServiceGroupInstanceNo)).attrs.search_engine).head? with
    | none => simp [hse] at hret
    | some m =>
      simp only [hse] at hret ⊢
      cases h1 : cluster.SearchEngineVersionCode <;>
      cases h2 : cluster.SearchEngineUserName <;>
      simp only [h1, h2] at hret ⊢ <;>
      try (exact Return.noConfusion hret)
      cases h3 : cluster.IsDualManager <;>
      cases h4 : cluster.ManagerNodeProductCode <;>
      simp only [h3, h4] at hret ⊢ <;>
      try (exact Return.noConfusion hret)
      cases h5 : cluster.DataNodeProductCode <;>
      cases h6 : cluster.DataNodeStorageSize <;>
      simp only [h5, h6] at hret ⊢ <;>
      try (exact Return.noConfusion hret)

/-- C16: in the state written by a `resourceNcloudSESClusterRead` that
returns nil on a found cluster, `master_node` is one block; when the
cluster's `MasterNodeCount`, `MasterNodeSubnetNo` and
`MasterNodeProductCode` are all non-nil the block holds
`is_master_only_node_activated` = true with count, subnet_no and
product_code taken from the cluster; when one of them is nil the block
holds `is_master_only_node_activated` = false and no other key; so the
block says true exactly when the three are non-nil. -/
theorem resourceNcloudSESClusterRead_master_node (config : ProviderConfig) (d : ResourceData)
    (c : Cloud) (cluster : ClusterInfo)
    (hlookup : c.getClusterInfo c.calls.length d.id = Except.ok (some cluster))
    (hret : (resourceNcloudSESClusterRead config d c).ret = Return.nil) :
    (∀ count subnetNo productCode, cluster.MasterNodeCount = some count →
      cluster.MasterNodeSubnetNo = some subnetNo →
      cluster.MasterNodeProductCode = some productCode →
      (resourceNcloudSESClusterRead config d c).d.attrs.master_node =
        [{ is_master_only_node_activated := some true, count := some (Itoa count),
           subnet_no := some (Itoa subnetNo), product_code := some productCode }]) ∧
    ((cluster.MasterNodeCount = none ∨ cluster.MasterNodeSubnetNo = none ∨
        cluster.MasterNodeProductCode = none) →
      (resourceNcloudSESClusterRead config d c).d.attrs.master_node =
        [{ is_master_only_node_activated := some false, count := none, subnet_no := none,
           product_code := none }]) ∧
    ((resourceNcloudSESClusterRead config d c).d.attrs.master_node.map
        (fun e => e.is_master_only_node_activated) = [some true] ↔
      (cluster.MasterNodeCount ≠ none ∧ cluster.MasterNodeSubnetNo ≠ none ∧
        cluster.MasterNodeProductCode ≠ none)) := by
  rw [read_writes_masterNodeElem config d c cluster hlookup hret]
  refine ⟨?_, ?_, ?_⟩
  · intro count subnetNo productCode h1 h2 h3
    simp [masterNodeElem, h1, h2, h3, Int32Value]
  · intro h
    cases h1 : cluster.MasterNodeCount <;> cases h2 : cluster.MasterNodeSubnetNo <;>
      cases h3 : cluster.MasterNodeProductCode <;> simp_all [masterNodeElem]
  · cases h1 : cluster.MasterNodeCount <;> cases h2 : cluster.MasterNodeSubnetNo <;>
      cases h3 : cluster.MasterNodeProductCode <;> simp [masterNodeElem, h1, h2, h3]

/-- C16, witness: a cluster without master nodes. -/
theorem resourceNcloudSESClusterRead_master_node_witness :
    (resourceNcloudSESClusterRead vpcConfig (sampleUpdate "pw" "pw" "3" "3")
        (scriptedCloud [Except.ok (some { sampleCluster "running" with
          MasterNodeCount := none })] 5)).d.attrs.master_node =
      [{ is_master_only_node_activated := some false, count := none, subnet_no := none,
         product_code := none }] :=
  (resourceNcloudSESClusterRead_master_node vpcConfig (sampleUpdate "pw" "pw" "3" "3")
    (scriptedCloud [Except.ok (some { sampleCluster "running" with
      MasterNodeCount := none })] 5)
    { sampleCluster "running" with MasterNodeCount := none } rfl (by decide)).2.1
    (Or.inl rfl)
end Ncloud
